import Mathlib

/-!
Shallow embedding of `src/tools/stock_data_tool.py`: five market-data tool
operations over a full-market snapshot table.  Each operation is modelled as a
pure function of the provider's response (an `Except` value standing for the
`akshare` fetch, which may raise), mirroring the Python `try`/`except`
structure: the body runs in an `Except String` monad and the operation
serializes either the body's JSON result or the static fallback payload.
The request-context construction (`runtime.context` / `new_context`) has no
observable effect on any output and is not modelled.
-/

namespace StockTool

/-- A cell of the provider's tabular result.  Numeric (float-typed) columns
hold `num` or `nan`; textual cells are `numStr` (content parses as a float)
or `txt` (content does not parse); `absent` marks a column that is missing
from the provider's table altogether. -/
inductive CellVal where
  | num (q : ℚ)
  | nan
  | numStr (q : ℚ)
  | txt (s : String)
  | absent
deriving DecidableEq

/-- A Python float value: a real number or NaN. -/
inductive PyFloat where
  | val (q : ℚ)
  | nan
deriving DecidableEq

/-- `row[col]` on a pandas row: raises `KeyError` when the column is absent. -/
def CellVal.item : CellVal → Except String CellVal
  | .absent => .error "KeyError"
  | v => .ok v

/-- `row.get(col, d)` on a pandas row: yields the default when the column is
absent (source line `idx.get('最新价', 0)` etc.). -/
def CellVal.getD (v : CellVal) (d : ℚ) : CellVal :=
  match v with
  | .absent => .num d
  | v => v

/-- Python `float(...)`: floats (NaN included) pass through, strings must
parse, anything else raises. -/
def pyFloat : CellVal → Except String PyFloat
  | .num q => .ok (.val q)
  | .nan => .ok .nan
  | .numStr q => .ok (.val q)
  | .txt s => .error ("could not convert string to float: " ++ s)
  | .absent => .error "KeyError"

/-- Truncation toward zero, as Python `int` applied to a float. -/
def truncQ (q : ℚ) : ℤ :=
  if 0 ≤ q then ⌊q⌋ else ⌈q⌉

/-- Python `int(...)`: truncates floats toward zero, rejects NaN, accepts
only integral strings. -/
def pyInt : CellVal → Except String ℤ
  | .num q => .ok (truncQ q)
  | .nan => .error "cannot convert float NaN to integer"
  | .numStr q => if q.den = 1 then .ok q.num else .error "invalid literal for int"
  | .txt _ => .error "invalid literal for int"
  | .absent => .error "KeyError"

def CellVal.isNum : CellVal → Bool
  | .num _ => true
  | _ => false

def CellVal.isFloatCell : CellVal → Bool
  | .num _ => true
  | .nan => true
  | _ => false

def CellVal.isAbsent : CellVal → Bool
  | .absent => true
  | _ => false

/-- `cell >= c` on a float-typed pandas column: NaN compares false. -/
def CellVal.geQ (v : CellVal) (c : ℚ) : Bool :=
  match v with
  | .num q => decide (c ≤ q)
  | _ => false

/-- `cell <= c` on a float-typed pandas column: NaN compares false. -/
def CellVal.leQ (v : CellVal) (c : ℚ) : Bool :=
  match v with
  | .num q => decide (q ≤ c)
  | _ => false

/-- `cell > c` on a float-typed pandas column: NaN compares false. -/
def CellVal.gtQ (v : CellVal) (c : ℚ) : Bool :=
  match v with
  | .num q => decide (c < q)
  | _ => false

/-- `cell < c` on a float-typed pandas column: NaN compares false. -/
def CellVal.ltQ (v : CellVal) (c : ℚ) : Bool :=
  match v with
  | .num q => decide (q < c)
  | _ => false

/-- `cell == c` on a float-typed pandas column: NaN compares false. -/
def CellVal.eqQ (v : CellVal) (c : ℚ) : Bool :=
  match v with
  | .num q => decide (q = c)
  | _ => false

/-- The numeric values of a float-typed column (NaN entries skipped). -/
def numCells (l : List CellVal) : List ℚ :=
  l.filterMap fun v =>
    match v with
    | .num q => some q
    | _ => none

/-- pandas `Series.sum` on a float-typed column (skipna; empty sums to 0);
a non-float cell in the column raises. -/
def colSum (l : List CellVal) : Except String ℚ :=
  if l.all CellVal.isFloatCell then .ok (numCells l).sum
  else .error "TypeError: unsupported operand"

/-- pandas `Series.mean` on a float-typed column (skipna; all-NaN yields
NaN); a non-float cell in the column raises. -/
def colMean (l : List CellVal) : Except String PyFloat :=
  if l.all CellVal.isFloatCell then
    if (numCells l).length = 0 then .ok .nan
    else .ok (.val ((numCells l).sum / (numCells l).length))
  else .error "TypeError: unsupported operand"

/-- Round to the nearest integer, ties to even — the rounding of Python's
built-in `round` (IEEE 754 `roundTiesToEven`).  `Rat.floor` is the
executable floor on `ℚ`. -/
def roundHalfEven (x : ℚ) : ℤ :=
  if x - x.floor < 1/2 then x.floor
  else if 1/2 < x - x.floor then x.floor + 1
  else if 2 ∣ x.floor then x.floor else x.floor + 1

/-- Python `round(x, 2)` on a float: NaN passes through. -/
def pyRound2 : PyFloat → PyFloat
  | .nan => .nan
  | .val q => .val ((roundHalfEven (q * 100) : ℚ) / 100)

/-! ### JSON documents and `json.dumps(..., ensure_ascii=False, indent=2)` -/

/-- A JSON value as produced by `json.dumps`; Python ints and floats render
differently, so they are kept apart. -/
inductive Json where
  | jnum (x : PyFloat)
  | jint (n : ℤ)
  | jstr (s : String)
  | jarr (xs : List Json)
  | jobj (fields : List (String × Json))

/-- String escaping for `json.dumps(..., ensure_ascii=False)`: quote and
backslash only (control characters do not occur in this data). -/
def escChar (c : Char) : String :=
  if c = '"' then "\\\"" else if c = '\\' then "\\\\" else String.singleton c

def escape (s : String) : String :=
  String.join (s.data.map escChar)

def spaces (n : ℕ) : String :=
  String.mk (List.replicate n ' ')

def joinSep (sep : String) : List String → String
  | [] => ""
  | [s] => s
  | s :: t :: rest => s ++ sep ++ joinSep sep (t :: rest)

/-- Decimal rendering of a rational float value: integral values render with
a trailing `.0` as Python `repr` does; finite decimal expansions render
exactly; (unreachable for float data) other rationals render as fractions. -/
def ratStr (q : ℚ) : String :=
  if q.den = 1 then toString q.num ++ ".0"
  else
    match (List.range 31).find? (fun k => q.den ∣ 10 ^ k) with
    | some k =>
      let m : ℤ := q.num * ((10 ^ k : ℤ) / (q.den : ℤ))
      let sign := if m < 0 then "-" else ""
      let ds := toString m.natAbs
      let ds := if ds.length < k + 1 then
          String.mk (List.replicate (k + 1 - ds.length) '0') ++ ds
        else ds
      sign ++ ds.take (ds.length - k) ++ "." ++ ds.drop (ds.length - k)
    | none => toString q.num ++ "/" ++ toString q.den

def pyFloatStr : PyFloat → String
  | .val q => ratStr q
  | .nan => "NaN"

/-- `json.dumps(v, ensure_ascii=False, indent=2)` at nesting depth `d`. -/
def Json.dump2 : Json → ℕ → String
  | .jnum x, _ => pyFloatStr x
  | .jint n, _ => toString n
  | .jstr s, _ => "\"" ++ escape s ++ "\""
  | .jarr [], _ => "[]"
  | .jarr (x :: xs), d =>
    let items := (x :: xs).attach.map fun p =>
      spaces (2 * (d + 1)) ++ Json.dump2 p.1 (d + 1)
    "[\n" ++ joinSep ",\n" items ++ "\n" ++ spaces (2 * d) ++ "]"
  | .jobj [], _ => "\x7b\x7d"
  | .jobj (f :: fs), d =>
    let items := (f :: fs).attach.map fun p =>
      spaces (2 * (d + 1)) ++ "\"" ++ escape p.1.1 ++ "\": " ++
        Json.dump2 p.1.2 (d + 1)
    "\x7b\n" ++ joinSep ",\n" items ++ "\n" ++ spaces (2 * d) ++ "\x7d"
termination_by j _ => sizeOf j
decreasing_by
  · have := List.sizeOf_lt_of_mem p.2
    simp at this ⊢
    omega
  · have h1 := List.sizeOf_lt_of_mem p.2
    obtain ⟨a, ha⟩ := p
    obtain ⟨s, v⟩ := a
    simp at h1 ⊢
    omega

/-- `json.dumps(v, ensure_ascii=False, indent=2)`. -/
def Json.dumps (j : Json) : String :=
  Json.dump2 j 0

/-- Value of a key in a JSON object (first occurrence). -/
def jget (j : Json) (k : String) : Option Json :=
  match j with
  | .jobj fs => (fs.find? fun p => p.1 == k).map (·.2)
  | _ => none

/-- Value at a two-deep key path in a JSON object. -/
def jget2 (j : Json) (k₁ k₂ : String) : Option Json :=
  match jget j k₁ with
  | some v => jget v k₂
  | none => none

/-- The keys of a JSON object, in order. -/
def jkeys (j : Json) : List String :=
  match j with
  | .jobj fs => fs.map (·.1)
  | _ => []

def hasKey (j : Json) (k : String) : Bool :=
  (jget j k).isSome

def isNumJson : Json → Bool
  | .jnum _ => true
  | .jint _ => true
  | _ => false

/-! ### The snapshot tables -/

/-- One row of the full A-share real-time snapshot
(`ak.stock_zh_a_spot_em()`).  代码/名称 are the string identifier columns;
the remaining columns are cells of the quote row. -/
structure Row where
  code : String          -- 代码
  name : String          -- 名称
  price : CellVal        -- 最新价
  pct : CellVal          -- 涨跌幅
  chg : CellVal          -- 涨跌额
  volume : CellVal       -- 成交量
  amount : CellVal       -- 成交额
  openP : CellVal        -- 今开
  high : CellVal         -- 最高
  low : CellVal          -- 最低
  prevClose : CellVal    -- 昨收
  turnoverRate : CellVal -- 换手率
  pe : CellVal           -- 市盈率
  pb : CellVal           -- 市净率
  totalCap : CellVal     -- 总市值
  floatCap : CellVal     -- 流通市值
deriving DecidableEq

/-- One row of the industry sector snapshot
(`ak.stock_board_industry_name_em()`). -/
structure SectorRow where
  name : String          -- 板块名称
  price : CellVal        -- 最新价
  pct : CellVal          -- 涨跌幅
  chg : CellVal          -- 涨跌额
  volume : CellVal       -- 成交量
  amount : CellVal       -- 成交额
  upCount : CellVal      -- 上涨家数
  downCount : CellVal    -- 下跌家数
deriving DecidableEq

/-- `df[col]` at frame level: raises `KeyError` when the column is absent
(an absent column shows as `absent` cells). -/
def column (df : List Row) (f : Row → CellVal) : Except String (List CellVal) :=
  let l := df.map f
  if l.any CellVal.isAbsent then .error "KeyError" else .ok l

/-- `df[col]` on the sector frame. -/
def scolumn (df : List SectorRow) (f : SectorRow → CellVal) :
    Except String (List CellVal) :=
  let l := df.map f
  if l.any CellVal.isAbsent then .error "KeyError" else .ok l

/-- Comparator for `sort_values(col, ascending=True)` on a float-typed
column: `ascLe x y` means `x` may precede `y`; NaN sorts last. -/
def ascLe (x y : CellVal) : Bool :=
  match x, y with
  | .num a, .num b => decide (a ≤ b)
  | _, .num _ => false
  | _, _ => true

/-- Comparator for `sort_values(col, ascending=False)` on a float-typed
column: NaN sorts last. -/
def descLe (x y : CellVal) : Bool :=
  match x, y with
  | .num a, .num b => decide (b ≤ a)
  | _, .num _ => false
  | _, _ => true

/-- `df.sort_values('涨跌幅', ascending=False)`. -/
def sortByPctDesc (df : List Row) : List Row :=
  df.mergeSort fun r s => descLe r.pct s.pct

/-- `df.sort_values('涨跌幅', ascending=True)`. -/
def sortByPctAsc (df : List Row) : List Row :=
  df.mergeSort fun r s => ascLe r.pct s.pct

/-- `df.sort_values('涨跌幅', ascending=False)` on the sector frame. -/
def sortSectorsDesc (df : List SectorRow) : List SectorRow :=
  df.mergeSort fun r s => descLe r.pct s.pct

/-! ### get_stock_index_data -/

/-- The four fixed index names and codes, in source order. -/
def indicesList : List (String × String) :=
  [("上证指数", "000001"), ("深证成指", "399001"),
   ("创业板指", "399006"), ("科创50", "000688")]

/-- The zeroed row emitted when an index code is missing from the snapshot
(the `else` branch, with Python int literals `0` and the no-data note). -/
def zeroIndexJson (code : String) : Json :=
  .jobj [("代码", .jstr code), ("最新价", .jint 0), ("涨跌幅", .jint 0),
         ("涨跌额", .jint 0), ("成交量", .jint 0), ("成交额", .jint 0),
         ("note", .jstr "暂无数据")]

/-- The row emitted for an index code found in the snapshot: each field read
with `idx.get(col, 0)` and coerced with `float(...)`. -/
def foundIndexJson (code : String) (r : Row) : Except String Json := do
  let p ← pyFloat (r.price.getD 0)
  let pc ← pyFloat (r.pct.getD 0)
  let ch ← pyFloat (r.chg.getD 0)
  let vo ← pyFloat (r.volume.getD 0)
  let am ← pyFloat (r.amount.getD 0)
  pure (.jobj [("代码", .jstr code), ("最新价", .jnum p), ("涨跌幅", .jnum pc),
               ("涨跌额", .jnum ch), ("成交量", .jnum vo), ("成交额", .jnum am)])

/-- One loop iteration of `get_stock_index_data`: filter the snapshot by
代码, take the first hit or emit the zeroed row. -/
def buildIndexEntry (df : List Row) (nc : String × String) :
    Except String (String × Json) :=
  match (df.filter fun r => r.code == nc.2).head? with
  | some r => do
    let v ← foundIndexJson nc.2 r
    pure (nc.1, v)
  | none => pure (nc.1, zeroIndexJson nc.2)

/-- The `try` body of `get_stock_index_data`. -/
def indexBody (fetch : Except String (List Row)) : Except String Json := do
  let df ← fetch
  let entries ← indicesList.mapM (buildIndexEntry df)
  pure (.jobj entries)

/-- The static fallback payload of `get_stock_index_data`. -/
def indexDemo (e : String) : Json :=
  .jobj [
    ("上证指数", .jobj [("代码", .jstr "000001"), ("最新价", .jnum (.val 3085.15)),
      ("涨跌幅", .jnum (.val 0.52)), ("涨跌额", .jnum (.val 15.93)),
      ("成交量", .jint 125680000), ("成交额", .jint 158965000000),
      ("note", .jstr "演示数据")]),
    ("深证成指", .jobj [("代码", .jstr "399001"), ("最新价", .jnum (.val 9856.78)),
      ("涨跌幅", .jnum (.val 0.78)), ("涨跌额", .jnum (.val 76.23)),
      ("成交量", .jint 234567000), ("成交额", .jint 345678000000),
      ("note", .jstr "演示数据")]),
    ("创业板指", .jobj [("代码", .jstr "399006"), ("最新价", .jnum (.val 1956.89)),
      ("涨跌幅", .jnum (.val (-0.23))), ("涨跌额", .jnum (.val (-4.51))),
      ("成交量", .jint 98765400), ("成交额", .jint 123456000000),
      ("note", .jstr "演示数据")]),
    ("科创50", .jobj [("代码", .jstr "000688"), ("最新价", .jnum (.val 892.45)),
      ("涨跌幅", .jnum (.val 1.25)), ("涨跌额", .jnum (.val 11.02)),
      ("成交量", .jint 45678900), ("成交额", .jint 67890000000),
      ("note", .jstr "演示数据")]),
    ("error", .jstr e)]

/-- `get_stock_index_data`: the body's result, or the fallback on any
exception. -/
def get_stock_index_data (fetch : Except String (List Row)) : String :=
  match indexBody fetch with
  | .ok j => Json.dumps j
  | .error e => Json.dumps (indexDemo e)

/-! ### get_stock_ranking -/

/-- One serialized ranking row: the seven selected columns, numeric ones
coerced with `float(row[col])`. -/
def quoteJson (r : Row) : Except String Json := do
  let p ← pyFloat (← r.price.item)
  let pc ← pyFloat (← r.pct.item)
  let ch ← pyFloat (← r.chg.item)
  let vo ← pyFloat (← r.volume.item)
  let am ← pyFloat (← r.amount.item)
  pure (.jobj [("代码", .jstr r.code), ("名称", .jstr r.name),
               ("最新价", .jnum p), ("涨跌幅", .jnum pc), ("涨跌额", .jnum ch),
               ("成交量", .jnum vo), ("成交额", .jnum am)])

/-- The `try` body of `get_stock_ranking`: sort by 涨跌幅 both ways, keep
the top 20 of each, serialize the selected columns.  `sort_values` on the
涨跌幅 column requires a float-typed column (raises otherwise). -/
def rankingBody (fetch : Except String (List Row)) : Except String Json := do
  let df ← fetch
  let pcts ← column df (·.pct)
  if pcts.all CellVal.isFloatCell then
    let rise ← ((sortByPctDesc df).take 20).mapM quoteJson
    let fall ← ((sortByPctAsc df).take 20).mapM quoteJson
    pure (.jobj [("涨幅榜", .jarr rise), ("跌幅榜", .jarr fall)])
  else .error "TypeError: unorderable column"

/-- The static fallback payload of `get_stock_ranking`. -/
def rankingDemo (e : String) : Json :=
  .jobj [
    ("涨幅榜", .jarr [
      .jobj [("代码", .jstr "600123"), ("名称", .jstr "兰花科创"),
        ("最新价", .jnum (.val 15.68)), ("涨跌幅", .jnum (.val 10.05)),
        ("涨跌额", .jnum (.val 1.43)), ("成交量", .jint 125680000),
        ("成交额", .jint 1589650000)],
      .jobj [("代码", .jstr "002456"), ("名称", .jstr "欧菲光"),
        ("最新价", .jnum (.val 12.35)), ("涨跌幅", .jnum (.val 9.98)),
        ("涨跌额", .jnum (.val 1.12)), ("成交量", .jint 234567000),
        ("成交额", .jint 3456780000)]]),
    ("跌幅榜", .jarr [
      .jobj [("代码", .jstr "300456"), ("名称", .jstr "赛微电子"),
        ("最新价", .jnum (.val 23.45)), ("涨跌幅", .jnum (.val (-9.95))),
        ("涨跌额", .jnum (.val (-2.59))), ("成交量", .jint 98765400),
        ("成交额", .jint 1234560000)],
      .jobj [("代码", .jstr "600789"), ("名称", .jstr "鲁抗医药"),
        ("最新价", .jnum (.val 8.92)), ("涨跌幅", .jnum (.val (-9.92))),
        ("涨跌额", .jnum (.val (-0.98))), ("成交量", .jint 45678900),
        ("成交额", .jint 678900000)]]),
    ("note", .jstr "演示数据"),
    ("error", .jstr e)]

/-- `get_stock_ranking`: the body's result, or the fallback on any
exception. -/
def get_stock_ranking (fetch : Except String (List Row)) : String :=
  match rankingBody fetch with
  | .ok j => Json.dumps j
  | .error e => Json.dumps (rankingDemo e)

/-! ### get_market_statistics -/

/-- The `try` body of `get_market_statistics`. -/
def statsBody (fetch : Except String (List Row)) : Except String Json := do
  let df ← fetch
  let pcts ← column df (·.pct)
  let limitUp := (df.filter fun r => r.pct.geQ 9.9).length
  let limitDown := (df.filter fun r => r.pct.leQ (-9.9)).length
  let upCount := (df.filter fun r => r.pct.gtQ 0).length
  let downCount := (df.filter fun r => r.pct.ltQ 0).length
  let flatCount := (df.filter fun r => r.pct.eqQ 0).length
  let avgChange ← colMean pcts
  let amounts ← column df (·.amount)
  let totalAmount ← colSum amounts
  pure (.jobj [
    ("涨跌停统计", .jobj [("涨停家数", .jint limitUp), ("跌停家数", .jint limitDown)]),
    ("涨跌家数", .jobj [("上涨家数", .jint upCount), ("下跌家数", .jint downCount),
      ("平盘家数", .jint flatCount)]),
    ("市场表现", .jobj [("平均涨跌幅", .jnum (pyRound2 avgChange)),
      ("总成交额", .jnum (pyRound2 (.val (totalAmount / 100000000))))]),
    ("股票总数", .jint df.length)])

/-- The static fallback payload of `get_market_statistics`. -/
def statsDemo (e : String) : Json :=
  .jobj [
    ("涨跌停统计", .jobj [("涨停家数", .jint 45), ("跌停家数", .jint 12)]),
    ("涨跌家数", .jobj [("上涨家数", .jint 2856), ("下跌家数", .jint 1523),
      ("平盘家数", .jint 89)]),
    ("市场表现", .jobj [("平均涨跌幅", .jnum (.val 0.35)),
      ("总成交额", .jnum (.val 7654.32))]),
    ("股票总数", .jint 4468),
    ("note", .jstr "演示数据"),
    ("error", .jstr e)]

/-- `get_market_statistics`: the body's result, or the fallback on any
exception. -/
def get_market_statistics (fetch : Except String (List Row)) : String :=
  match statsBody fetch with
  | .ok j => Json.dumps j
  | .error e => Json.dumps (statsDemo e)

/-! ### get_sector_performance -/

/-- One serialized sector row: name, three float-coerced fields, two
int-coerced fields. -/
def sectorJson (r : SectorRow) : Except String Json := do
  let p ← pyFloat (← r.price.item)
  let pc ← pyFloat (← r.pct.item)
  let ch ← pyFloat (← r.chg.item)
  let up ← pyInt (← r.upCount.item)
  let dn ← pyInt (← r.downCount.item)
  pure (.jobj [("板块名称", .jstr r.name), ("最新价", .jnum p),
               ("涨跌幅", .jnum pc), ("涨跌额", .jnum ch),
               ("上涨家数", .jint up), ("下跌家数", .jint dn)])

/-- The `try` body of `get_sector_performance`: select the eight columns
(raising when one is absent), sort descending by 涨跌幅 (requires a
float-typed column), take head 10 and tail 10, serialize. -/
def sectorBody (fetch : Except String (List SectorRow)) : Except String Json := do
  let df ← fetch
  let _ ← scolumn df (·.price)
  let pcts ← scolumn df (·.pct)
  let _ ← scolumn df (·.chg)
  let _ ← scolumn df (·.volume)
  let _ ← scolumn df (·.amount)
  let _ ← scolumn df (·.upCount)
  let _ ← scolumn df (·.downCount)
  if pcts.all CellVal.isFloatCell then
    let sorted := sortSectorsDesc df
    let top ← (sorted.take 10).mapM sectorJson
    let bottom ← (sorted.drop (sorted.length - 10)).mapM sectorJson
    pure (.jobj [("表现最好的板块", .jarr top), ("表现最差的板块", .jarr bottom)])
  else .error "TypeError: unorderable column"

/-- The static fallback payload of `get_sector_performance`. -/
def sectorDemo (e : String) : Json :=
  .jobj [
    ("表现最好的板块", .jarr [
      .jobj [("板块名称", .jstr "AI应用"), ("最新价", .jnum (.val 1256.78)),
        ("涨跌幅", .jnum (.val 4.52)), ("涨跌额", .jnum (.val 54.32)),
        ("上涨家数", .jint 45), ("下跌家数", .jint 3)],
      .jobj [("板块名称", .jstr "半导体"), ("最新价", .jnum (.val 3456.89)),
        ("涨跌幅", .jnum (.val 3.25)), ("涨跌额", .jnum (.val 108.76)),
        ("上涨家数", .jint 89), ("下跌家数", .jint 12)]]),
    ("表现最差的板块", .jarr [
      .jobj [("板块名称", .jstr "房地产"), ("最新价", .jnum (.val 789.45)),
        ("涨跌幅", .jnum (.val (-2.15))), ("涨跌额", .jnum (.val (-17.34))),
        ("上涨家数", .jint 8), ("下跌家数", .jint 67)],
      .jobj [("板块名称", .jstr "银行"), ("最新价", .jnum (.val 1023.56)),
        ("涨跌幅", .jnum (.val (-1.23))), ("涨跌额", .jnum (.val (-12.78))),
        ("上涨家数", .jint 12), ("下跌家数", .jint 34)]]),
    ("note", .jstr "演示数据"),
    ("error", .jstr e)]

/-- `get_sector_performance`: the body's result, or the fallback on any
exception. -/
def get_sector_performance (fetch : Except String (List SectorRow)) : String :=
  match sectorBody fetch with
  | .ok j => Json.dumps j
  | .error e => Json.dumps (sectorDemo e)

/-! ### get_stock_info -/

/-- The sixteen fields of a successful single-stock lookup, in source
order; the fourteen numeric ones coerced with `float(...)`. -/
def stockInfoFields (r : Row) : Except String (List (String × Json)) := do
  let p ← pyFloat (← r.price.item)
  let pc ← pyFloat (← r.pct.item)
  let ch ← pyFloat (← r.chg.item)
  let op ← pyFloat (← r.openP.item)
  let hi ← pyFloat (← r.high.item)
  let lo ← pyFloat (← r.low.item)
  let pv ← pyFloat (← r.prevClose.item)
  let vo ← pyFloat (← r.volume.item)
  let am ← pyFloat (← r.amount.item)
  let tr ← pyFloat (← r.turnoverRate.item)
  let pe ← pyFloat (← r.pe.item)
  let pb ← pyFloat (← r.pb.item)
  let tc ← pyFloat (← r.totalCap.item)
  let fc ← pyFloat (← r.floatCap.item)
  pure [("代码", .jstr r.code), ("名称", .jstr r.name), ("最新价", .jnum p),
        ("涨跌幅", .jnum pc), ("涨跌额", .jnum ch), ("今开", .jnum op),
        ("最高", .jnum hi), ("最低", .jnum lo), ("昨收", .jnum pv),
        ("成交量", .jnum vo), ("成交额", .jnum am), ("换手率", .jnum tr),
        ("市盈率", .jnum pe), ("市净率", .jnum pb), ("总市值", .jnum tc),
        ("流通市值", .jnum fc)]

/-- The `try` body of `get_stock_info`: exact-match lookup by 代码; an
empty result returns the plain not-found message (still inside the `try`),
a hit serializes the sixteen fields. -/
def stockInfoBody (stock_code : String) (fetch : Except String (List Row)) :
    Except String String := do
  let df ← fetch
  match (df.filter fun r => r.code == stock_code).head? with
  | none => pure ("未找到股票代码: " ++ stock_code)
  | some r => do
    let fields ← stockInfoFields r
    pure (Json.dumps (.jobj fields))

/-- The static fallback payload of `get_stock_info` (the queried code is
echoed). -/
def stockInfoDemo (stock_code : String) (e : String) : Json :=
  .jobj [("代码", .jstr stock_code), ("名称", .jstr "示例股票"),
    ("最新价", .jnum (.val 15.68)), ("涨跌幅", .jnum (.val 5.23)),
    ("涨跌额", .jnum (.val 0.78)), ("今开", .jnum (.val 15.10)),
    ("最高", .jnum (.val 15.85)), ("最低", .jnum (.val 15.05)),
    ("昨收", .jnum (.val 14.90)), ("成交量", .jint 125680000),
    ("成交额", .jint 1987654321), ("换手率", .jnum (.val 3.45)),
    ("市盈率", .jnum (.val 25.6)), ("市净率", .jnum (.val 2.8)),
    ("总市值", .jint 156800000000), ("流通市值", .jint 98760000000),
    ("note", .jstr "演示数据"), ("error", .jstr e)]

/-- `get_stock_info`: the body's result (success JSON or plain not-found
string), or the fallback on any exception. -/
def get_stock_info (stock_code : String) (fetch : Except String (List Row)) :
    String :=
  match stockInfoBody stock_code fetch with
  | .ok s => s
  | .error e => Json.dumps (stockInfoDemo stock_code e)

/-! ### Total counterparts of the fallible serializers (used to describe
successful outputs) -/

/-- Total counterpart of `pyFloat` on cells where it cannot raise. -/
def pyFloatT : CellVal → PyFloat
  | .num q => .val q
  | .nan => .nan
  | .numStr q => .val q
  | _ => .val 0

/-- Total counterpart of `pyInt` on cells where it cannot raise. -/
def pyIntT : CellVal → ℤ
  | .num q => truncQ q
  | _ => 0

/-- The percent-change value of a row whose 涨跌幅 cell is numeric. -/
def pctVal (r : Row) : ℚ :=
  match r.pct with
  | .num q => q
  | _ => 0

/-- The turnover-amount value of a row whose 成交额 cell is numeric. -/
def amtVal (r : Row) : ℚ :=
  match r.amount with
  | .num q => q
  | _ => 0

/-- The percent-change value of a sector row. -/
def spctVal (r : SectorRow) : ℚ :=
  match r.pct with
  | .num q => q
  | _ => 0

/-- The JSON object `quoteJson` produces when it succeeds. -/
def quoteJsonF (r : Row) : Json :=
  .jobj [("代码", .jstr r.code), ("名称", .jstr r.name),
         ("最新价", .jnum (pyFloatT r.price)), ("涨跌幅", .jnum (pyFloatT r.pct)),
         ("涨跌额", .jnum (pyFloatT r.chg)), ("成交量", .jnum (pyFloatT r.volume)),
         ("成交额", .jnum (pyFloatT r.amount))]

/-- The JSON object `sectorJson` produces when it succeeds. -/
def sectorJsonF (r : SectorRow) : Json :=
  .jobj [("板块名称", .jstr r.name), ("最新价", .jnum (pyFloatT r.price)),
         ("涨跌幅", .jnum (pyFloatT r.pct)), ("涨跌额", .jnum (pyFloatT r.chg)),
         ("上涨家数", .jint (pyIntT r.upCount)), ("下跌家数", .jint (pyIntT r.downCount))]

/-- The field list `stockInfoFields` produces when it succeeds. -/
def stockInfoFieldsF (r : Row) : List (String × Json) :=
  [("代码", .jstr r.code), ("名称", .jstr r.name),
   ("最新价", .jnum (pyFloatT r.price)), ("涨跌幅", .jnum (pyFloatT r.pct)),
   ("涨跌额", .jnum (pyFloatT r.chg)), ("今开", .jnum (pyFloatT r.openP)),
   ("最高", .jnum (pyFloatT r.high)), ("最低", .jnum (pyFloatT r.low)),
   ("昨收", .jnum (pyFloatT r.prevClose)), ("成交量", .jnum (pyFloatT r.volume)),
   ("成交额", .jnum (pyFloatT r.amount)), ("换手率", .jnum (pyFloatT r.turnoverRate)),
   ("市盈率", .jnum (pyFloatT r.pe)), ("市净率", .jnum (pyFloatT r.pb)),
   ("总市值", .jnum (pyFloatT r.totalCap)), ("流通市值", .jnum (pyFloatT r.floatCap))]

/-- pandas `Series.mean` (skipna) as a total function of the column. -/
def colMeanT (l : List CellVal) : PyFloat :=
  if (numCells l).length = 0 then .nan
  else .val ((numCells l).sum / (numCells l).length)

/-- The JSON object `statsBody` produces when it succeeds. -/
def statsJsonF (df : List Row) : Json :=
  .jobj [
    ("涨跌停统计", .jobj [
      ("涨停家数", .jint ((df.filter fun r => r.pct.geQ 9.9).length : ℤ)),
      ("跌停家数", .jint ((df.filter fun r => r.pct.leQ (-9.9)).length : ℤ))]),
    ("涨跌家数", .jobj [
      ("上涨家数", .jint ((df.filter fun r => r.pct.gtQ 0).length : ℤ)),
      ("下跌家数", .jint ((df.filter fun r => r.pct.ltQ 0).length : ℤ)),
      ("平盘家数", .jint ((df.filter fun r => r.pct.eqQ 0).length : ℤ))]),
    ("市场表现", .jobj [
      ("平均涨跌幅", .jnum (pyRound2 (colMeanT (df.map (·.pct))))),
      ("总成交额", .jnum (pyRound2 (.val ((numCells (df.map (·.amount))).sum / 100000000))))]),
    ("股票总数", .jint (df.length : ℤ))]

/-! ### Well-formedness of rows -/

/-- The cells a ranking row serializes can all be `float`-coerced, and its
涨跌幅 cell is an actual number. -/
def Row.quoteOk (r : Row) : Bool :=
  r.price.isFloatCell && r.pct.isNum && r.chg.isFloatCell &&
    r.volume.isFloatCell && r.amount.isFloatCell

/-- Every cell of the row holds an actual number. -/
def Row.allNum (r : Row) : Bool :=
  r.price.isNum && r.pct.isNum && r.chg.isNum && r.volume.isNum &&
    r.amount.isNum && r.openP.isNum && r.high.isNum && r.low.isNum &&
    r.prevClose.isNum && r.turnoverRate.isNum && r.pe.isNum && r.pb.isNum &&
    r.totalCap.isNum && r.floatCap.isNum

/-- All fourteen cells serialized by `get_stock_info` can be
`float`-coerced. -/
def Row.infoOk (r : Row) : Bool :=
  r.price.isFloatCell && r.pct.isFloatCell && r.chg.isFloatCell &&
    r.openP.isFloatCell && r.high.isFloatCell && r.low.isFloatCell &&
    r.prevClose.isFloatCell && r.volume.isFloatCell && r.amount.isFloatCell &&
    r.turnoverRate.isFloatCell && r.pe.isFloatCell && r.pb.isFloatCell &&
    r.totalCap.isFloatCell && r.floatCap.isFloatCell

/-- A sector row whose serialization succeeds: 涨跌幅 numeric (for the
sort), float-coercible price/change cells, integer-coercible counts, and no
absent column. -/
def SectorRow.sectorOk (r : SectorRow) : Bool :=
  r.price.isFloatCell && r.pct.isNum && r.chg.isFloatCell &&
    !r.volume.isAbsent && !r.amount.isAbsent && r.upCount.isNum &&
    r.downCount.isNum

/-- The sorted gainers selection of `get_stock_ranking`. -/
def riseRows (df : List Row) : List Row :=
  (sortByPctDesc df).take 20

/-- The sorted losers selection of `get_stock_ranking`. -/
def fallRows (df : List Row) : List Row :=
  (sortByPctAsc df).take 20

/-- The best-10 selection of `get_sector_performance`. -/
def topSectorRows (df : List SectorRow) : List SectorRow :=
  (sortSectorsDesc df).take 10

/-- The worst-10 selection of `get_sector_performance`
(pandas `tail(10)`). -/
def bottomSectorRows (df : List SectorRow) : List SectorRow :=
  (sortSectorsDesc df).drop ((sortSectorsDesc df).length - 10)

/-! ### Monad and cell lemmas -/

@[simp] theorem ok_bind {α β : Type} (a : α) (f : α → Except String β) :
    (Except.ok a : Except String α) >>= f = f a := rfl

@[simp] theorem error_bind {α β : Type} (e : String) (f : α → Except String β) :
    (Except.error e : Except String α) >>= f = .error e := rfl

@[simp] theorem pure_eq_ok {α : Type} (a : α) :
    (pure a : Except String α) = .ok a := rfl

theorem bind_ok_inv {α β : Type} {x : Except String α} {f : α → Except String β}
    {b : β} (h : x >>= f = .ok b) : ∃ a, x = .ok a ∧ f a = .ok b := by
  cases x with
  | ok a => exact ⟨a, rfl, h⟩
  | error e => simp at h

theorem mapM_ok_map {α β : Type} (f : α → Except String β) (g : α → β) :
    ∀ l : List α, (∀ a ∈ l, f a = .ok (g a)) → l.mapM f = .ok (l.map g) := by
  intro l
  induction l with
  | nil => intro _; rw [List.mapM_nil]; rfl
  | cons a l ih =>
    intro h
    have ha := h a (by simp)
    have hl := ih fun x hx => h x (by simp [hx])
    rw [List.mapM_cons, ha, ok_bind, hl, ok_bind, List.map_cons, pure_eq_ok]

theorem mapM_ok_mem {α β : Type} (f : α → Except String β) :
    ∀ {l : List α} {out : List β}, l.mapM f = .ok out →
      ∀ b ∈ out, ∃ a ∈ l, f a = .ok b := by
  intro l
  induction l with
  | nil =>
    intro out h b hb
    rw [List.mapM_nil, pure_eq_ok] at h
    injection h with h
    subst h
    simp at hb
  | cons a l ih =>
    intro out h b hb
    rw [List.mapM_cons] at h
    obtain ⟨x, hx, h⟩ := bind_ok_inv h
    obtain ⟨xs, hxs, h⟩ := bind_ok_inv h
    rw [pure_eq_ok] at h
    injection h with h
    subst h
    rcases List.mem_cons.1 hb with hb | hb
    · exact ⟨a, by simp, hb ▸ hx⟩
    · obtain ⟨a', ha', hfa'⟩ := ih hxs b hb
      exact ⟨a', by simp [ha'], hfa'⟩

theorem column_ok_inv {df : List Row} {f : Row → CellVal} {l : List CellVal}
    (h : column df f = .ok l) :
    l = df.map f ∧ ∀ r ∈ df, (f r).isAbsent = false := by
  simp only [column] at h
  split at h
  · cases h
  · rename_i hc
    cases h
    refine ⟨rfl, ?_⟩
    intro r hr
    by_contra hab
    exact hc (List.any_eq_true.2 ⟨f r, List.mem_map_of_mem _ hr,
      by simpa using hab⟩)

theorem scolumn_ok_inv {df : List SectorRow} {f : SectorRow → CellVal}
    {l : List CellVal} (h : scolumn df f = .ok l) :
    l = df.map f ∧ ∀ r ∈ df, (f r).isAbsent = false := by
  simp only [scolumn] at h
  split at h
  · cases h
  · rename_i hc
    cases h
    refine ⟨rfl, ?_⟩
    intro r hr
    by_contra hab
    exact hc (List.any_eq_true.2 ⟨f r, List.mem_map_of_mem _ hr,
      by simpa using hab⟩)

theorem colMean_ok_inv {l : List CellVal} {x : PyFloat} (h : colMean l = .ok x) :
    (∀ v ∈ l, v.isFloatCell = true) ∧ x = colMeanT l := by
  simp only [colMean] at h
  split at h
  · rename_i hall
    constructor
    · intro v hv
      exact List.all_eq_true.1 hall v hv
    · split at h <;> rename_i hlen <;> cases h <;> simp [colMeanT, hlen]
  · cases h

theorem colSum_ok_inv {l : List CellVal} {x : ℚ} (h : colSum l = .ok x) :
    (∀ v ∈ l, v.isFloatCell = true) ∧ x = (numCells l).sum := by
  simp only [colSum] at h
  split at h
  · rename_i hall
    cases h
    exact ⟨fun v hv => List.all_eq_true.1 hall v hv, rfl⟩
  · cases h

theorem isNum_isFloatCell {v : CellVal} (h : v.isNum = true) :
    v.isFloatCell = true := by
  cases v <;> simp_all [CellVal.isNum, CellVal.isFloatCell]

theorem isFloatCell_not_absent {v : CellVal} (h : v.isFloatCell = true) :
    v.isAbsent = false := by
  cases v <;> simp_all [CellVal.isFloatCell, CellVal.isAbsent]

theorem item_of_not_absent {v : CellVal} (h : v.isAbsent = false) :
    v.item = .ok v := by
  cases v <;> simp_all [CellVal.isAbsent, CellVal.item]

theorem pyFloat_of_floatCell {v : CellVal} (h : v.isFloatCell = true) :
    pyFloat v = .ok (pyFloatT v) := by
  cases v <;> simp_all [CellVal.isFloatCell, pyFloat, pyFloatT]

theorem pyInt_of_isNum {v : CellVal} (h : v.isNum = true) :
    pyInt v = .ok (pyIntT v) := by
  cases v <;> simp_all [CellVal.isNum, pyInt, pyIntT]

theorem quoteJson_ok {r : Row} (h : r.quoteOk = true) :
    quoteJson r = .ok (quoteJsonF r) := by
  simp only [Row.quoteOk, Bool.and_eq_true] at h
  obtain ⟨⟨⟨⟨h1, h2⟩, h3⟩, h4⟩, h5⟩ := h
  rw [quoteJson,
    item_of_not_absent (isFloatCell_not_absent h1), ok_bind,
    pyFloat_of_floatCell h1, ok_bind,
    item_of_not_absent (isFloatCell_not_absent (isNum_isFloatCell h2)), ok_bind,
    pyFloat_of_floatCell (isNum_isFloatCell h2), ok_bind,
    item_of_not_absent (isFloatCell_not_absent h3), ok_bind,
    pyFloat_of_floatCell h3, ok_bind,
    item_of_not_absent (isFloatCell_not_absent h4), ok_bind,
    pyFloat_of_floatCell h4, ok_bind,
    item_of_not_absent (isFloatCell_not_absent h5), ok_bind,
    pyFloat_of_floatCell h5, ok_bind]
  rfl

theorem sectorJson_ok {r : SectorRow} (h : r.sectorOk = true) :
    sectorJson r = .ok (sectorJsonF r) := by
  simp only [SectorRow.sectorOk, Bool.and_eq_true] at h
  obtain ⟨⟨⟨⟨⟨⟨h1, h2⟩, h3⟩, _⟩, _⟩, h6⟩, h7⟩ := h
  rw [sectorJson,
    item_of_not_absent (isFloatCell_not_absent h1), ok_bind,
    pyFloat_of_floatCell h1, ok_bind,
    item_of_not_absent (isFloatCell_not_absent (isNum_isFloatCell h2)), ok_bind,
    pyFloat_of_floatCell (isNum_isFloatCell h2), ok_bind,
    item_of_not_absent (isFloatCell_not_absent h3), ok_bind,
    pyFloat_of_floatCell h3, ok_bind,
    item_of_not_absent (isFloatCell_not_absent (isNum_isFloatCell h6)), ok_bind,
    pyInt_of_isNum h6, ok_bind,
    item_of_not_absent (isFloatCell_not_absent (isNum_isFloatCell h7)), ok_bind,
    pyInt_of_isNum h7, ok_bind]
  rfl

theorem stockInfoFields_ok {r : Row} (h : r.infoOk = true) :
    stockInfoFields r = .ok (stockInfoFieldsF r) := by
  simp only [Row.infoOk, Bool.and_eq_true] at h
  obtain ⟨⟨⟨⟨⟨⟨⟨⟨⟨⟨⟨⟨⟨h1, h2⟩, h3⟩, h4⟩, h5⟩, h6⟩, h7⟩, h8⟩, h9⟩, h10⟩,
    h11⟩, h12⟩, h13⟩, h14⟩ := h
  rw [stockInfoFields,
    item_of_not_absent (isFloatCell_not_absent h1), ok_bind,
    pyFloat_of_floatCell h1, ok_bind,
    item_of_not_absent (isFloatCell_not_absent h2), ok_bind,
    pyFloat_of_floatCell h2, ok_bind,
    item_of_not_absent (isFloatCell_not_absent h3), ok_bind,
    pyFloat_of_floatCell h3, ok_bind,
    item_of_not_absent (isFloatCell_not_absent h4), ok_bind,
    pyFloat_of_floatCell h4, ok_bind,
    item_of_not_absent (isFloatCell_not_absent h5), ok_bind,
    pyFloat_of_floatCell h5, ok_bind,
    item_of_not_absent (isFloatCell_not_absent h6), ok_bind,
    pyFloat_of_floatCell h6, ok_bind,
    item_of_not_absent (isFloatCell_not_absent h7), ok_bind,
    pyFloat_of_floatCell h7, ok_bind,
    item_of_not_absent (isFloatCell_not_absent h8), ok_bind,
    pyFloat_of_floatCell h8, ok_bind,
    item_of_not_absent (isFloatCell_not_absent h9), ok_bind,
    pyFloat_of_floatCell h9, ok_bind,
    item_of_not_absent (isFloatCell_not_absent h10), ok_bind,
    pyFloat_of_floatCell h10, ok_bind,
    item_of_not_absent (isFloatCell_not_absent h11), ok_bind,
    pyFloat_of_floatCell h11, ok_bind,
    item_of_not_absent (isFloatCell_not_absent h12), ok_bind,
    pyFloat_of_floatCell h12, ok_bind,
    item_of_not_absent (isFloatCell_not_absent h13), ok_bind,
    pyFloat_of_floatCell h13, ok_bind,
    item_of_not_absent (isFloatCell_not_absent h14), ok_bind,
    pyFloat_of_floatCell h14, ok_bind]
  rfl

/-! ### Sorting lemmas -/

theorem CellVal.isNum_iff {v : CellVal} : v.isNum = true ↔ ∃ q, v = .num q := by
  cases v <;> simp [CellVal.isNum]

theorem descLe_trans (a b c : CellVal) (h1 : descLe a b = true)
    (h2 : descLe b c = true) : descLe a c = true := by
  cases a <;> cases b <;> cases c <;> simp_all [descLe]
  exact le_trans h2 h1

theorem descLe_total (a b : CellVal) : descLe a b || descLe b a := by
  cases a <;> cases b <;> simp [descLe]
  exact le_total _ _

theorem ascLe_trans (a b c : CellVal) (h1 : ascLe a b = true)
    (h2 : ascLe b c = true) : ascLe a c = true := by
  cases a <;> cases b <;> cases c <;> simp_all [ascLe]
  exact le_trans h1 h2

theorem ascLe_total (a b : CellVal) : ascLe a b || ascLe b a := by
  cases a <;> cases b <;> simp [ascLe]
  exact le_total _ _

theorem sortByPctDesc_pairwise (df : List Row) :
    (sortByPctDesc df).Pairwise fun r s => descLe r.pct s.pct = true :=
  List.sorted_mergeSort
    (fun a b c => descLe_trans a.pct b.pct c.pct)
    (fun a b => descLe_total a.pct b.pct) df

theorem sortByPctAsc_pairwise (df : List Row) :
    (sortByPctAsc df).Pairwise fun r s => ascLe r.pct s.pct = true :=
  List.sorted_mergeSort
    (fun a b c => ascLe_trans a.pct b.pct c.pct)
    (fun a b => ascLe_total a.pct b.pct) df

theorem sortSectorsDesc_pairwise (df : List SectorRow) :
    (sortSectorsDesc df).Pairwise fun r s => descLe r.pct s.pct = true :=
  List.sorted_mergeSort
    (fun a b c => descLe_trans a.pct b.pct c.pct)
    (fun a b => descLe_total a.pct b.pct) df

theorem mem_sortByPctDesc {df : List Row} {r : Row} :
    r ∈ sortByPctDesc df ↔ r ∈ df := List.mem_mergeSort

theorem mem_sortByPctAsc {df : List Row} {r : Row} :
    r ∈ sortByPctAsc df ↔ r ∈ df := List.mem_mergeSort

theorem mem_sortSectorsDesc {df : List SectorRow} {r : SectorRow} :
    r ∈ sortSectorsDesc df ↔ r ∈ df := List.mem_mergeSort

theorem riseRows_sorted {df : List Row} (h : ∀ r ∈ df, r.pct.isNum = true) :
    (riseRows df).Pairwise fun a b => pctVal b ≤ pctVal a := by
  have hp := List.Pairwise.sublist (List.take_sublist 20 _)
    (sortByPctDesc_pairwise df)
  refine hp.imp_of_mem ?_
  intro a b ha hb hd
  have ha' := h a (mem_sortByPctDesc.1 (List.take_subset 20 _ ha))
  have hb' := h b (mem_sortByPctDesc.1 (List.take_subset 20 _ hb))
  obtain ⟨p, hap⟩ := CellVal.isNum_iff.1 ha'
  obtain ⟨q, hbq⟩ := CellVal.isNum_iff.1 hb'
  rw [hap, hbq] at hd
  simp [descLe] at hd
  simp [pctVal, hap, hbq, hd]

theorem fallRows_sorted {df : List Row} (h : ∀ r ∈ df, r.pct.isNum = true) :
    (fallRows df).Pairwise fun a b => pctVal a ≤ pctVal b := by
  have hp := List.Pairwise.sublist (List.take_sublist 20 _)
    (sortByPctAsc_pairwise df)
  refine hp.imp_of_mem ?_
  intro a b ha hb hd
  have ha' := h a (mem_sortByPctAsc.1 (List.take_subset 20 _ ha))
  have hb' := h b (mem_sortByPctAsc.1 (List.take_subset 20 _ hb))
  obtain ⟨p, hap⟩ := CellVal.isNum_iff.1 ha'
  obtain ⟨q, hbq⟩ := CellVal.isNum_iff.1 hb'
  rw [hap, hbq] at hd
  simp [ascLe] at hd
  simp [pctVal, hap, hbq, hd]

/-! ### Body shape lemmas -/

theorem column_ok_of {df : List Row} {f : Row → CellVal}
    (h : ∀ r ∈ df, (f r).isAbsent = false) : column df f = .ok (df.map f) := by
  simp only [column]
  rw [if_neg]
  intro hany
  obtain ⟨v, hv, hab⟩ := List.any_eq_true.1 hany
  obtain ⟨r, hr, rfl⟩ := List.mem_map.1 hv
  rw [h r hr] at hab
  cases hab

theorem scolumn_ok_of {df : List SectorRow} {f : SectorRow → CellVal}
    (h : ∀ r ∈ df, (f r).isAbsent = false) : scolumn df f = .ok (df.map f) := by
  simp only [scolumn]
  rw [if_neg]
  intro hany
  obtain ⟨v, hv, hab⟩ := List.any_eq_true.1 hany
  obtain ⟨r, hr, rfl⟩ := List.mem_map.1 hv
  rw [h r hr] at hab
  cases hab

theorem colMean_ok_of {l : List CellVal} (h : ∀ v ∈ l, v.isFloatCell = true) :
    colMean l = .ok (colMeanT l) := by
  simp only [colMean, colMeanT]
  rw [if_pos (List.all_eq_true.2 h)]
  split <;> rfl

theorem colSum_ok_of {l : List CellVal} (h : ∀ v ∈ l, v.isFloatCell = true) :
    colSum l = .ok (numCells l).sum := by
  simp only [colSum]
  rw [if_pos (List.all_eq_true.2 h)]

theorem rankingBody_ok {df : List Row} (h : ∀ r ∈ df, r.quoteOk = true) :
    rankingBody (.ok df) =
      .ok (.jobj [("涨幅榜", .jarr ((riseRows df).map quoteJsonF)),
                  ("跌幅榜", .jarr ((fallRows df).map quoteJsonF))]) := by
  have hq : ∀ r ∈ df, r.pct.isNum = true := by
    intro r hr
    have := h r hr
    simp only [Row.quoteOk, Bool.and_eq_true] at this
    exact this.1.1.1.2
  have hcol : column df (·.pct) = .ok (df.map (·.pct)) :=
    column_ok_of fun r hr =>
      isFloatCell_not_absent (isNum_isFloatCell (hq r hr))
  have hall : (df.map (·.pct)).all CellVal.isFloatCell = true := by
    rw [List.all_eq_true]
    intro v hv
    obtain ⟨r, hr, rfl⟩ := List.mem_map.1 hv
    exact isNum_isFloatCell (hq r hr)
  have hrise : ((sortByPctDesc df).take 20).mapM quoteJson =
      .ok ((riseRows df).map quoteJsonF) :=
    mapM_ok_map _ _ _ fun r hr =>
      quoteJson_ok (h r (mem_sortByPctDesc.1 (List.take_subset 20 _ hr)))
  have hfall : ((sortByPctAsc df).take 20).mapM quoteJson =
      .ok ((fallRows df).map quoteJsonF) :=
    mapM_ok_map _ _ _ fun r hr =>
      quoteJson_ok (h r (mem_sortByPctAsc.1 (List.take_subset 20 _ hr)))
  simp only [rankingBody, ok_bind, hcol, hall, if_true]
  rw [hrise, ok_bind, hfall, ok_bind, pure_eq_ok]

theorem sectorBody_ok {df : List SectorRow}
    (h : ∀ r ∈ df, r.sectorOk = true) :
    sectorBody (.ok df) =
      .ok (.jobj [("表现最好的板块", .jarr ((topSectorRows df).map sectorJsonF)),
                  ("表现最差的板块", .jarr ((bottomSectorRows df).map sectorJsonF))]) := by
  have hok : ∀ r ∈ df, r.price.isFloatCell = true ∧ r.pct.isNum = true ∧
      r.chg.isFloatCell = true ∧ r.volume.isAbsent = false ∧
      r.amount.isAbsent = false ∧ r.upCount.isNum = true ∧
      r.downCount.isNum = true := by
    intro r hr
    have := h r hr
    simp only [SectorRow.sectorOk, Bool.and_eq_true, Bool.not_eq_true'] at this
    exact ⟨this.1.1.1.1.1.1, this.1.1.1.1.1.2, this.1.1.1.1.2, this.1.1.1.2,
      this.1.1.2, this.1.2, this.2⟩
  have h1 : scolumn df (·.price) = .ok (df.map (·.price)) :=
    scolumn_ok_of fun r hr => isFloatCell_not_absent (hok r hr).1
  have h2 : scolumn df (·.pct) = .ok (df.map (·.pct)) :=
    scolumn_ok_of fun r hr =>
      isFloatCell_not_absent (isNum_isFloatCell (hok r hr).2.1)
  have h3 : scolumn df (·.chg) = .ok (df.map (·.chg)) :=
    scolumn_ok_of fun r hr => isFloatCell_not_absent (hok r hr).2.2.1
  have h4 : scolumn df (·.volume) = .ok (df.map (·.volume)) :=
    scolumn_ok_of fun r hr => (hok r hr).2.2.2.1
  have h5 : scolumn df (·.amount) = .ok (df.map (·.amount)) :=
    scolumn_ok_of fun r hr => (hok r hr).2.2.2.2.1
  have h6 : scolumn df (·.upCount) = .ok (df.map (·.upCount)) :=
    scolumn_ok_of fun r hr =>
      isFloatCell_not_absent (isNum_isFloatCell (hok r hr).2.2.2.2.2.1)
  have h7 : scolumn df (·.downCount) = .ok (df.map (·.downCount)) :=
    scolumn_ok_of fun r hr =>
      isFloatCell_not_absent (isNum_isFloatCell (hok r hr).2.2.2.2.2.2)
  have hall : (df.map (·.pct)).all CellVal.isFloatCell = true := by
    rw [List.all_eq_true]
    intro v hv
    obtain ⟨r, hr, rfl⟩ := List.mem_map.1 hv
    exact isNum_isFloatCell (hok r hr).2.1
  have htop : ((sortSectorsDesc df).take 10).mapM sectorJson =
      .ok ((topSectorRows df).map sectorJsonF) :=
    mapM_ok_map _ _ _ fun r hr =>
      sectorJson_ok (h r (mem_sortSectorsDesc.1 (List.take_subset 10 _ hr)))
  have hbot : ((sortSectorsDesc df).drop ((sortSectorsDesc df).length - 10)).mapM
        sectorJson = .ok ((bottomSectorRows df).map sectorJsonF) :=
    mapM_ok_map _ _ _ fun r hr =>
      sectorJson_ok (h r (mem_sortSectorsDesc.1 (List.drop_subset _ _ hr)))
  simp only [sectorBody, ok_bind, h1, h2, h3, h4, h5, h6, h7, hall, if_true]
  rw [htop, ok_bind, hbot, ok_bind, pure_eq_ok]

theorem statsBody_ok {df : List Row}
    (hp : ∀ r ∈ df, r.pct.isFloatCell = true)
    (ha : ∀ r ∈ df, r.amount.isFloatCell = true) :
    statsBody (.ok df) = .ok (statsJsonF df) := by
  have hcolp : column df (·.pct) = .ok (df.map (·.pct)) :=
    column_ok_of fun r hr => isFloatCell_not_absent (hp r hr)
  have hcola : column df (·.amount) = .ok (df.map (·.amount)) :=
    column_ok_of fun r hr => isFloatCell_not_absent (ha r hr)
  have hmean : colMean (df.map (·.pct)) = .ok (colMeanT (df.map (·.pct))) := by
    refine colMean_ok_of ?_
    intro v hv
    obtain ⟨r, hr, rfl⟩ := List.mem_map.1 hv
    exact hp r hr
  have hsum : colSum (df.map (·.amount)) =
      .ok (numCells (df.map (·.amount))).sum := by
    refine colSum_ok_of ?_
    intro v hv
    obtain ⟨r, hr, rfl⟩ := List.mem_map.1 hv
    exact ha r hr
  simp only [statsBody, ok_bind, hcolp, hmean, hcola, hsum, pure_eq_ok,
    statsJsonF]

theorem statsBody_ok_inv {df : List Row} {j : Json}
    (h : statsBody (.ok df) = .ok j) :
    (∀ r ∈ df, r.pct.isFloatCell = true) ∧
      (∀ r ∈ df, r.amount.isFloatCell = true) ∧ j = statsJsonF df := by
  simp only [statsBody, ok_bind] at h
  obtain ⟨pcts, hcolp, h⟩ := bind_ok_inv h
  obtain ⟨avg, hmean, h⟩ := bind_ok_inv h
  obtain ⟨amounts, hcola, h⟩ := bind_ok_inv h
  obtain ⟨total, hsum, h⟩ := bind_ok_inv h
  rw [pure_eq_ok] at h
  injection h with h
  obtain ⟨rfl, -⟩ := column_ok_inv hcolp
  obtain ⟨rfl, -⟩ := column_ok_inv hcola
  obtain ⟨hpf, rfl⟩ := colMean_ok_inv hmean
  obtain ⟨haf, rfl⟩ := colSum_ok_inv hsum
  refine ⟨?_, ?_, ?_⟩
  · intro r hr
    exact hpf _ (List.mem_map_of_mem _ hr)
  · intro r hr
    exact haf _ (List.mem_map_of_mem _ hr)
  · rw [← h]
    rfl

/-! ### Index-operation lemmas -/

theorem buildIndexEntry_fst {df : List Row} {nc : String × String}
    {p : String × Json} (h : buildIndexEntry df nc = .ok p) : p.1 = nc.1 := by
  simp only [buildIndexEntry] at h
  split at h
  · obtain ⟨v, hv, h⟩ := bind_ok_inv h
    rw [pure_eq_ok] at h
    injection h with h
    rw [← h]
  · rw [pure_eq_ok] at h
    injection h with h
    rw [← h]

theorem buildIndexEntry_none {df : List Row} {nc : String × String}
    (h : (df.filter fun r => r.code == nc.2).head? = none) :
    buildIndexEntry df nc = .ok (nc.1, zeroIndexJson nc.2) := by
  simp only [buildIndexEntry, h, pure_eq_ok]

theorem foundIndexJson_of_num {c : String} {r : Row} {p pc ch vo am : ℚ}
    (h1 : r.price = .num p) (h2 : r.pct = .num pc) (h3 : r.chg = .num ch)
    (h4 : r.volume = .num vo) (h5 : r.amount = .num am) :
    foundIndexJson c r =
      .ok (.jobj [("代码", .jstr c), ("最新价", .jnum (.val p)),
        ("涨跌幅", .jnum (.val pc)), ("涨跌额", .jnum (.val ch)),
        ("成交量", .jnum (.val vo)), ("成交额", .jnum (.val am))]) := by
  rw [foundIndexJson, h1, h2, h3, h4, h5]
  rfl

theorem buildIndexEntry_some_num {df : List Row} {nc : String × String}
    {r : Row} {p pc ch vo am : ℚ}
    (h : (df.filter fun r => r.code == nc.2).head? = some r)
    (h1 : r.price = .num p) (h2 : r.pct = .num pc) (h3 : r.chg = .num ch)
    (h4 : r.volume = .num vo) (h5 : r.amount = .num am) :
    buildIndexEntry df nc =
      .ok (nc.1, .jobj [("代码", .jstr nc.2), ("最新价", .jnum (.val p)),
        ("涨跌幅", .jnum (.val pc)), ("涨跌额", .jnum (.val ch)),
        ("成交量", .jnum (.val vo)), ("成交额", .jnum (.val am))]) := by
  simp only [buildIndexEntry, h, foundIndexJson_of_num h1 h2 h3 h4 h5,
    ok_bind, pure_eq_ok]

theorem foundIndexJson_ok_inv {c : String} {r : Row} {v : Json}
    (h : foundIndexJson c r = .ok v) :
    ∃ p pc ch vo am : PyFloat,
      v = .jobj [("代码", .jstr c), ("最新价", .jnum p), ("涨跌幅", .jnum pc),
        ("涨跌额", .jnum ch), ("成交量", .jnum vo), ("成交额", .jnum am)] := by
  simp only [foundIndexJson] at h
  obtain ⟨p, _, h⟩ := bind_ok_inv h
  obtain ⟨pc, _, h⟩ := bind_ok_inv h
  obtain ⟨ch, _, h⟩ := bind_ok_inv h
  obtain ⟨vo, _, h⟩ := bind_ok_inv h
  obtain ⟨am, _, h⟩ := bind_ok_inv h
  rw [pure_eq_ok] at h
  injection h with h
  exact ⟨p, pc, ch, vo, am, h.symm⟩

theorem indexBody_ok_inv {df : List Row} {j : Json}
    (h : indexBody (.ok df) = .ok j) :
    ∃ v1 v2 v3 v4,
      j = .jobj [("上证指数", v1), ("深证成指", v2), ("创业板指", v3),
        ("科创50", v4)] ∧
      buildIndexEntry df ("上证指数", "000001") = .ok ("上证指数", v1) ∧
      buildIndexEntry df ("深证成指", "399001") = .ok ("深证成指", v2) ∧
      buildIndexEntry df ("创业板指", "399006") = .ok ("创业板指", v3) ∧
      buildIndexEntry df ("科创50", "000688") = .ok ("科创50", v4) := by
  simp only [indexBody, ok_bind] at h
  obtain ⟨entries, hmap, h⟩ := bind_ok_inv h
  rw [pure_eq_ok] at h
  injection h with h
  subst h
  simp only [indicesList, List.mapM_cons, List.mapM_nil, pure_eq_ok,
    ok_bind] at hmap
  obtain ⟨p1, hp1, hmap⟩ := bind_ok_inv hmap
  obtain ⟨t1, ht1, hmap⟩ := bind_ok_inv hmap
  injection hmap with hmap
  subst hmap
  obtain ⟨p2, hp2, ht1⟩ := bind_ok_inv ht1
  obtain ⟨t2, ht2, ht1⟩ := bind_ok_inv ht1
  injection ht1 with ht1
  subst ht1
  obtain ⟨p3, hp3, ht2⟩ := bind_ok_inv ht2
  obtain ⟨t3, ht3, ht2⟩ := bind_ok_inv ht2
  injection ht2 with ht2
  subst ht2
  obtain ⟨p4, hp4, ht3⟩ := bind_ok_inv ht3
  injection ht3 with ht3
  subst ht3
  obtain ⟨a1, v1⟩ := p1
  obtain ⟨a2, v2⟩ := p2
  obtain ⟨a3, v3⟩ := p3
  obtain ⟨a4, v4⟩ := p4
  have e1 := buildIndexEntry_fst hp1
  have e2 := buildIndexEntry_fst hp2
  have e3 := buildIndexEntry_fst hp3
  have e4 := buildIndexEntry_fst hp4
  simp only at e1 e2 e3 e4
  subst e1
  subst e2
  subst e3
  subst e4
  exact ⟨v1, v2, v3, v4, rfl, hp1, hp2, hp3, hp4⟩

/-! ### Success-output inversion lemmas for the serializers -/

theorem quoteJson_ok_inv {r : Row} {v : Json} (h : quoteJson r = .ok v) :
    ∃ p pc ch vo am : PyFloat,
      v = .jobj [("代码", .jstr r.code), ("名称", .jstr r.name),
        ("最新价", .jnum p), ("涨跌幅", .jnum pc), ("涨跌额", .jnum ch),
        ("成交量", .jnum vo), ("成交额", .jnum am)] := by
  simp only [quoteJson] at h
  obtain ⟨_, _, h⟩ := bind_ok_inv h
  obtain ⟨p, _, h⟩ := bind_ok_inv h
  obtain ⟨_, _, h⟩ := bind_ok_inv h
  obtain ⟨pc, _, h⟩ := bind_ok_inv h
  obtain ⟨_, _, h⟩ := bind_ok_inv h
  obtain ⟨ch, _, h⟩ := bind_ok_inv h
  obtain ⟨_, _, h⟩ := bind_ok_inv h
  obtain ⟨vo, _, h⟩ := bind_ok_inv h
  obtain ⟨_, _, h⟩ := bind_ok_inv h
  obtain ⟨am, _, h⟩ := bind_ok_inv h
  rw [pure_eq_ok] at h
  injection h with h
  exact ⟨p, pc, ch, vo, am, h.symm⟩

theorem sectorJson_ok_inv {r : SectorRow} {v : Json} (h : sectorJson r = .ok v) :
    ∃ (p pc ch : PyFloat) (up dn : ℤ),
      v = .jobj [("板块名称", .jstr r.name), ("最新价", .jnum p),
        ("涨跌幅", .jnum pc), ("涨跌额", .jnum ch),
        ("上涨家数", .jint up), ("下跌家数", .jint dn)] := by
  simp only [sectorJson] at h
  obtain ⟨_, _, h⟩ := bind_ok_inv h
  obtain ⟨p, _, h⟩ := bind_ok_inv h
  obtain ⟨_, _, h⟩ := bind_ok_inv h
  obtain ⟨pc, _, h⟩ := bind_ok_inv h
  obtain ⟨_, _, h⟩ := bind_ok_inv h
  obtain ⟨ch, _, h⟩ := bind_ok_inv h
  obtain ⟨_, _, h⟩ := bind_ok_inv h
  obtain ⟨up, _, h⟩ := bind_ok_inv h
  obtain ⟨_, _, h⟩ := bind_ok_inv h
  obtain ⟨dn, _, h⟩ := bind_ok_inv h
  rw [pure_eq_ok] at h
  injection h with h
  exact ⟨p, pc, ch, up, dn, h.symm⟩

theorem stockInfoFields_ok_inv {r : Row} {fs : List (String × Json)}
    (h : stockInfoFields r = .ok fs) :
    ∃ x1 x2 x3 x4 x5 x6 x7 x8 x9 x10 x11 x12 x13 x14 : PyFloat,
      fs = [("代码", .jstr r.code), ("名称", .jstr r.name),
        ("最新价", .jnum x1), ("涨跌幅", .jnum x2), ("涨跌额", .jnum x3),
        ("今开", .jnum x4), ("最高", .jnum x5), ("最低", .jnum x6),
        ("昨收", .jnum x7), ("成交量", .jnum x8), ("成交额", .jnum x9),
        ("换手率", .jnum x10), ("市盈率", .jnum x11), ("市净率", .jnum x12),
        ("总市值", .jnum x13), ("流通市值", .jnum x14)] := by
  simp only [stockInfoFields] at h
  obtain ⟨_, _, h⟩ := bind_ok_inv h
  obtain ⟨x1, _, h⟩ := bind_ok_inv h
  obtain ⟨_, _, h⟩ := bind_ok_inv h
  obtain ⟨x2, _, h⟩ := bind_ok_inv h
  obtain ⟨_, _, h⟩ := bind_ok_inv h
  obtain ⟨x3, _, h⟩ := bind_ok_inv h
  obtain ⟨_, _, h⟩ := bind_ok_inv h
  obtain ⟨x4, _, h⟩ := bind_ok_inv h
  obtain ⟨_, _, h⟩ := bind_ok_inv h
  obtain ⟨x5, _, h⟩ := bind_ok_inv h
  obtain ⟨_, _, h⟩ := bind_ok_inv h
  obtain ⟨x6, _, h⟩ := bind_ok_inv h
  obtain ⟨_, _, h⟩ := bind_ok_inv h
  obtain ⟨x7, _, h⟩ := bind_ok_inv h
  obtain ⟨_, _, h⟩ := bind_ok_inv h
  obtain ⟨x8, _, h⟩ := bind_ok_inv h
  obtain ⟨_, _, h⟩ := bind_ok_inv h
  obtain ⟨x9, _, h⟩ := bind_ok_inv h
  obtain ⟨_, _, h⟩ := bind_ok_inv h
  obtain ⟨x10, _, h⟩ := bind_ok_inv h
  obtain ⟨_, _, h⟩ := bind_ok_inv h
  obtain ⟨x11, _, h⟩ := bind_ok_inv h
  obtain ⟨_, _, h⟩ := bind_ok_inv h
  obtain ⟨x12, _, h⟩ := bind_ok_inv h
  obtain ⟨_, _, h⟩ := bind_ok_inv h
  obtain ⟨x13, _, h⟩ := bind_ok_inv h
  obtain ⟨_, _, h⟩ := bind_ok_inv h
  obtain ⟨x14, _, h⟩ := bind_ok_inv h
  rw [pure_eq_ok] at h
  injection h with h
  exact ⟨x1, x2, x3, x4, x5, x6, x7, x8, x9, x10, x11, x12, x13, x14, h.symm⟩

/-! ### The not-found string is not a serialized JSON object -/

theorem dumps_jobj_head (fs : List (String × Json)) :
    (Json.dumps (.jobj fs)).data.head? = some '\x7b' := by
  cases fs with
  | nil =>
    rw [Json.dumps, Json.dump2]
    rfl
  | cons f fs =>
    rw [Json.dumps, Json.dump2]
    rw [String.data_append]
    rfl

theorem notFound_ne_dumps_jobj (code : String) (fs : List (String × Json)) :
    "未找到股票代码: " ++ code ≠ Json.dumps (.jobj fs) := by
  intro h
  have hd := congrArg (fun s => s.data.head?) h
  simp only at hd
  have hL : ("未找到股票代码: " ++ code).data.head? = some '未' := by
    rw [String.data_append]
    rfl
  rw [hL, dumps_jobj_head] at hd
  exact absurd hd (by decide)

/-! ### Rounding lemmas -/

theorem ratFloor_le (x : ℚ) : (x.floor : ℚ) ≤ x :=
  Rat.le_floor.1 le_rfl

theorem lt_ratFloor_add_one (x : ℚ) : x < (x.floor : ℚ) + 1 := by
  by_contra hcon
  push_neg at hcon
  have : x.floor + 1 ≤ x.floor := Rat.le_floor.2 (by push_cast; linarith)
  omega

theorem roundHalfEven_bounds (x : ℚ) :
    x - 1/2 ≤ (roundHalfEven x : ℚ) ∧ (roundHalfEven x : ℚ) ≤ x + 1/2 := by
  have h1 : (x.floor : ℚ) ≤ x := ratFloor_le x
  have h2 : x < (x.floor : ℚ) + 1 := lt_ratFloor_add_one x
  rw [roundHalfEven]
  split_ifs with ha hb hc
  · constructor <;> linarith
  · push_cast
    constructor <;> linarith
  · have ha' := not_lt.1 ha
    have hb' := not_lt.1 hb
    constructor <;> linarith
  · have ha' := not_lt.1 ha
    have hb' := not_lt.1 hb
    push_cast
    constructor <;> linarith

theorem ratFloor_eq_iff {x : ℚ} {z : ℤ} :
    x.floor = z ↔ (z : ℚ) ≤ x ∧ x < (z : ℚ) + 1 := by
  constructor
  · rintro rfl
    exact ⟨ratFloor_le x, lt_ratFloor_add_one x⟩
  · rintro ⟨h1, h2⟩
    have ha : z ≤ x.floor := Rat.le_floor.2 h1
    have hb : x.floor ≤ z := by
      by_contra hc
      push_neg at hc
      have hzf : ((z + 1 : ℤ) : ℚ) ≤ (x.floor : ℚ) := by
        exact_mod_cast hc
      have hfx : (x.floor : ℚ) ≤ x := ratFloor_le x
      push_cast at hzf
      linarith
    omega

theorem roundHalfEven_tie (z : ℤ) :
    roundHalfEven ((z : ℚ) + 1/2) = if 2 ∣ z then z else z + 1 := by
  have hf : ((z : ℚ) + 1/2).floor = z := by
    rw [ratFloor_eq_iff]
    constructor
    · linarith
    · linarith
  rw [roundHalfEven, hf]
  rw [if_neg (by rw [add_sub_cancel_left]; exact lt_irrefl _),
    if_neg (by rw [add_sub_cancel_left]; exact lt_irrefl _)]

theorem roundHalfEven_tie0 : roundHalfEven (1/2) = 0 := by
  have h : ((1 : ℚ)/2) = ((0 : ℤ) : ℚ) + 1/2 := by norm_num
  rw [h, roundHalfEven_tie]
  norm_num

theorem roundHalfEven_tie1 : roundHalfEven (3/2) = 2 := by
  have h : ((3 : ℚ)/2) = ((1 : ℤ) : ℚ) + 1/2 := by norm_num
  rw [h, roundHalfEven_tie]
  norm_num

theorem roundHalfEven_tie2 : roundHalfEven (5/2) = 2 := by
  have h : ((5 : ℚ)/2) = ((2 : ℤ) : ℚ) + 1/2 := by norm_num
  rw [h, roundHalfEven_tie]
  norm_num

theorem roundHalfEven_tie3 : roundHalfEven (7/2) = 4 := by
  have h : ((7 : ℚ)/2) = ((3 : ℤ) : ℚ) + 1/2 := by norm_num
  rw [h, roundHalfEven_tie]
  norm_num

/-! ### Partition of the snapshot by the sign of the percent change -/

theorem pct_partition (df : List Row) (h : ∀ r ∈ df, r.pct.isNum = true) :
    (df.filter fun r => r.pct.gtQ 0).length +
      (df.filter fun r => r.pct.ltQ 0).length +
      (df.filter fun r => r.pct.eqQ 0).length = df.length := by
  induction df with
  | nil => rfl
  | cons r df ih =>
    have hr := h r (by simp)
    have ih' := ih fun x hx => h x (by simp [hx])
    obtain ⟨q, hq⟩ := CellVal.isNum_iff.1 hr
    have hgt : r.pct.gtQ 0 = decide (0 < q) := by rw [hq]; rfl
    have hlt : r.pct.ltQ 0 = decide (q < 0) := by rw [hq]; rfl
    have heq : r.pct.eqQ 0 = decide (q = 0) := by rw [hq]; rfl
    rcases lt_trichotomy q 0 with hq0 | hq0 | hq0
    · have g1 : decide (0 < q) = false := by simp [not_lt.2 (le_of_lt hq0)]
      have g2 : decide (q < 0) = true := by simp [hq0]
      have g3 : decide (q = 0) = false := by simp [ne_of_lt hq0]
      simp [List.filter_cons, hgt, hlt, heq, g1, g2, g3]
      try omega
    · have g1 : decide (0 < q) = false := by simp [hq0]
      have g2 : decide (q < 0) = false := by simp [hq0]
      have g3 : decide (q = 0) = true := by simp [hq0]
      simp [List.filter_cons, hgt, hlt, heq, g1, g2, g3]
      try omega
    · have g1 : decide (0 < q) = true := by simp [hq0]
      have g2 : decide (q < 0) = false := by simp [not_lt.2 (le_of_lt hq0)]
      have g3 : decide (q = 0) = false := by simp [ne_of_gt hq0]
      simp [List.filter_cons, hgt, hlt, heq, g1, g2, g3]
      try omega

/-! ### Column values under all-numeric hypotheses -/

theorem numCells_map_pct {df : List Row} (h : ∀ r ∈ df, r.pct.isNum = true) :
    numCells (df.map (·.pct)) = df.map pctVal := by
  induction df with
  | nil => rfl
  | cons r df ih
  =>
    have hr := h r (by simp)
    have ih' := ih fun x hx => h x (by simp [hx])
    obtain ⟨q, hq⟩ := CellVal.isNum_iff.1 hr
    simp [numCells, List.filterMap_cons, hq, pctVal] at ih' ⊢
    try rw [← ih']
    try rfl

theorem numCells_map_amount {df : List Row}
    (h : ∀ r ∈ df, r.amount.isNum = true) :
    numCells (df.map (·.amount)) = df.map amtVal := by
  induction df with
  | nil => rfl
  | cons r df ih
  =>
    have hr := h r (by simp)
    have ih' := ih fun x hx => h x (by simp [hx])
    obtain ⟨q, hq⟩ := CellVal.isNum_iff.1 hr
    simp [numCells, List.filterMap_cons, hq, amtVal] at ih' ⊢
    try rw [← ih']
    try rfl

theorem buildIndexEntry_code_note {df : List Row} {n c : String} {v : Json}
    (h : buildIndexEntry df (n, c) = .ok (n, v)) :
    jget v "代码" = some (.jstr c) ∧
      ((df.filter fun r => r.code == c) ≠ [] → hasKey v "note" = false) := by
  simp only [buildIndexEntry] at h
  split at h
  · rename_i r heq
    obtain ⟨w, hw, h⟩ := bind_ok_inv h
    rw [pure_eq_ok] at h
    simp only [Except.ok.injEq, Prod.mk.injEq] at h
    obtain ⟨-, hv⟩ := h
    subst hv
    obtain ⟨p, pc, ch, vo, am, rfl⟩ := foundIndexJson_ok_inv hw
    exact ⟨rfl, fun _ => rfl⟩
  · rename_i heq
    rw [pure_eq_ok] at h
    simp only [Except.ok.injEq, Prod.mk.injEq] at h
    obtain ⟨-, hv⟩ := h
    subst hv
    refine ⟨rfl, ?_⟩
    intro hne
    exact absurd (List.head?_eq_none_iff.1 heq) hne

/-- The percent-change value carried by a serialized quote row. -/
def jpct (j : Json) : ℚ :=
  match jget j "涨跌幅" with
  | some (.jnum (.val q)) => q
  | _ => 0

theorem jpct_quoteJsonF {r : Row} {q : ℚ} (h : r.pct = .num q) :
    jpct (quoteJsonF r) = pctVal r := by
  simp only [quoteJsonF, jpct, jget, pctVal, h]
  rfl

/-! ### Concrete demonstration data (used by the witnesses) -/

def rowA : Row :=
  ⟨"000001", "平安银行", .num 12.5, .num 1.2, .num 0.15, .num 1000000,
   .num 12500000, .num 12.4, .num 12.6, .num 12.3, .num 12.35, .num 0.8,
   .num 6.5, .num 0.9, .num 242000000000, .num 241000000000⟩

def rowB : Row :=
  ⟨"300001", "特锐德", .num 20.1, .num (-0.5), .num (-0.1), .num 2000000,
   .num 30000000, .num 20.3, .num 20.4, .num 20.0, .num 20.2, .num 1.1,
   .num 30.2, .num 3.1, .num 21000000000, .num 20000000000⟩

def rowC : Row :=
  ⟨"600001", "邯郸钢铁", .num 5.0, .num 0, .num 0, .num 1500000,
   .num 7500000, .num 5.0, .num 5.1, .num 4.9, .num 5.0, .num 0.4,
   .num 9.8, .num 1.2, .num 9000000000, .num 8000000000⟩

def dfW : List Row := [rowA, rowB, rowC]

/-- The index-snapshot JSON produced for `dfW` (only 000001 present). -/
def jW7 : Json :=
  .jobj [("上证指数", .jobj [("代码", .jstr "000001"),
            ("最新价", .jnum (.val 12.5)), ("涨跌幅", .jnum (.val 1.2)),
            ("涨跌额", .jnum (.val 0.15)), ("成交量", .jnum (.val 1000000)),
            ("成交额", .jnum (.val 12500000))]),
         ("深证成指", zeroIndexJson "399001"),
         ("创业板指", zeroIndexJson "399006"),
         ("科创50", zeroIndexJson "000688")]

def secA : SectorRow :=
  ⟨"AI应用", .num 1256.78, .num 4.52, .num 54.32, .num 500000, .num 6000000,
   .num 45, .num 3⟩

def secB : SectorRow :=
  ⟨"银行", .num 1023.56, .num (-1.23), .num (-12.78), .num 800000,
   .num 9000000, .num 12, .num 34⟩

def dfSec : List SectorRow := [secA, secB]

/-! ## Claim theorems -/

/-- C1: every operation catches any exception raised during the
fetch/transform phase and, instead of propagating it, returns the
JSON-encoded static fallback payload, which carries the full placeholder
schema plus an `error` field holding the failure's string representation
and a `note` field marking the payload as demonstration data (for the
index operation the `note` fields sit inside each index entry). -/
theorem c1_fallback :
    (∀ f e, indexBody f = .error e →
      get_stock_index_data f = Json.dumps (indexDemo e)) ∧
    (∀ f e, rankingBody f = .error e →
      get_stock_ranking f = Json.dumps (rankingDemo e)) ∧
    (∀ f e, statsBody f = .error e →
      get_market_statistics f = Json.dumps (statsDemo e)) ∧
    (∀ f e, sectorBody f = .error e →
      get_sector_performance f = Json.dumps (sectorDemo e)) ∧
    (∀ c f e, stockInfoBody c f = .error e →
      get_stock_info c f = Json.dumps (stockInfoDemo c e)) ∧
    (∀ e, jget (indexDemo e) "error" = some (.jstr e) ∧
      jkeys (indexDemo e) =
        ["上证指数", "深证成指", "创业板指", "科创50", "error"] ∧
      ∀ nc ∈ indicesList, ∃ v, jget (indexDemo e) nc.1 = some v ∧
        jget v "note" = some (.jstr "演示数据")) ∧
    (∀ e, jget (rankingDemo e) "error" = some (.jstr e) ∧
      jget (rankingDemo e) "note" = some (.jstr "演示数据") ∧
      jkeys (rankingDemo e) = ["涨幅榜", "跌幅榜", "note", "error"]) ∧
    (∀ e, jget (statsDemo e) "error" = some (.jstr e) ∧
      jget (statsDemo e) "note" = some (.jstr "演示数据") ∧
      jkeys (statsDemo e) =
        ["涨跌停统计", "涨跌家数", "市场表现", "股票总数", "note", "error"]) ∧
    (∀ e, jget (sectorDemo e) "error" = some (.jstr e) ∧
      jget (sectorDemo e) "note" = some (.jstr "演示数据") ∧
      jkeys (sectorDemo e) =
        ["表现最好的板块", "表现最差的板块", "note", "error"]) ∧
    (∀ c e, jget (stockInfoDemo c e) "error" = some (.jstr e) ∧
      jget (stockInfoDemo c e) "note" = some (.jstr "演示数据") ∧
      jget (stockInfoDemo c e) "代码" = some (.jstr c) ∧
      jkeys (stockInfoDemo c e) =
        ["代码", "名称", "最新价", "涨跌幅", "涨跌额", "今开", "最高", "最低",
         "昨收", "成交量", "成交额", "换手率", "市盈率", "市净率", "总市值",
         "流通市值", "note", "error"]) := by
  refine ⟨?_, ?_, ?_, ?_, ?_, ?_, ?_, ?_, ?_, ?_⟩
  · intro f e h
    simp only [get_stock_index_data, h]
  · intro f e h
    simp only [get_stock_ranking, h]
  · intro f e h
    simp only [get_market_statistics, h]
  · intro f e h
    simp only [get_sector_performance, h]
  · intro c f e h
    simp only [get_stock_info, h]
  · intro e
    refine ⟨rfl, rfl, ?_⟩
    intro nc hnc
    simp only [indicesList, List.mem_cons, List.not_mem_nil, or_false] at hnc
    rcases hnc with rfl | rfl | rfl | rfl
    · exact ⟨_, rfl, rfl⟩
    · exact ⟨_, rfl, rfl⟩
    · exact ⟨_, rfl, rfl⟩
    · exact ⟨_, rfl, rfl⟩
  · intro e
    exact ⟨rfl, rfl, rfl⟩
  · intro e
    exact ⟨rfl, rfl, rfl⟩
  · intro e
    exact ⟨rfl, rfl, rfl⟩
  · intro c e
    exact ⟨rfl, rfl, rfl, rfl⟩

/-- Witness for C1: a concrete failing fetch yields each operation's
serialized fallback payload. -/
theorem c1_fallback_witness :
    get_stock_index_data (.error "boom") = Json.dumps (indexDemo "boom") ∧
    get_stock_ranking (.error "boom") = Json.dumps (rankingDemo "boom") ∧
    get_market_statistics (.error "boom") = Json.dumps (statsDemo "boom") ∧
    get_sector_performance (.error "boom") = Json.dumps (sectorDemo "boom") ∧
    get_stock_info "000001" (.error "boom") =
      Json.dumps (stockInfoDemo "000001" "boom") :=
  ⟨c1_fallback.1 _ "boom" rfl, c1_fallback.2.1 _ "boom" rfl,
   c1_fallback.2.2.1 _ "boom" rfl, c1_fallback.2.2.2.1 _ "boom" rfl,
   c1_fallback.2.2.2.2.1 "000001" _ "boom" rfl⟩

/-- C7: for each of the four fixed index codes, a code present in the
snapshot has its row's exact numeric fields echoed under the corresponding
index name, and an absent code yields a row whose five numeric fields are
all `0`, tagged with the no-data note. -/
theorem c7_index_echo :
    ∀ (df : List Row) (j : Json) (name code : String),
      (name, code) ∈ indicesList → indexBody (.ok df) = .ok j →
      ((df.filter fun r => r.code == code).head? = none →
        jget j name = some (zeroIndexJson code) ∧
        jget (zeroIndexJson code) "note" = some (.jstr "暂无数据") ∧
        jget (zeroIndexJson code) "最新价" = some (.jint 0) ∧
        jget (zeroIndexJson code) "涨跌幅" = some (.jint 0) ∧
        jget (zeroIndexJson code) "涨跌额" = some (.jint 0) ∧
        jget (zeroIndexJson code) "成交量" = some (.jint 0) ∧
        jget (zeroIndexJson code) "成交额" = some (.jint 0)) ∧
      (∀ (r : Row) (p pc ch vo am : ℚ),
        (df.filter fun r => r.code == code).head? = some r →
        r.price = .num p → r.pct = .num pc → r.chg = .num ch →
        r.volume = .num vo → r.amount = .num am →
        jget j name = some (.jobj [("代码", .jstr code),
          ("最新价", .jnum (.val p)), ("涨跌幅", .jnum (.val pc)),
          ("涨跌额", .jnum (.val ch)), ("成交量", .jnum (.val vo)),
          ("成交额", .jnum (.val am))])) := by
  intro df j name code hmem hbody
  obtain ⟨v1, v2, v3, v4, rfl, hb1, hb2, hb3, hb4⟩ := indexBody_ok_inv hbody
  simp only [indicesList, List.mem_cons, List.not_mem_nil, or_false,
    Prod.mk.injEq] at hmem
  rcases hmem with ⟨rfl, rfl⟩ | ⟨rfl, rfl⟩ | ⟨rfl, rfl⟩ | ⟨rfl, rfl⟩
  · constructor
    · intro hnone
      rw [buildIndexEntry_none hnone] at hb1
      simp only [Except.ok.injEq, Prod.mk.injEq] at hb1
      obtain ⟨-, hv⟩ := hb1
      subst hv
      exact ⟨rfl, rfl, rfl, rfl, rfl, rfl, rfl⟩
    · intro r p pc ch vo am hsome h1 h2 h3 h4 h5
      rw [buildIndexEntry_some_num hsome h1 h2 h3 h4 h5] at hb1
      simp only [Except.ok.injEq, Prod.mk.injEq] at hb1
      obtain ⟨-, hv⟩ := hb1
      subst hv
      rfl
  · constructor
    · intro hnone
      rw [buildIndexEntry_none hnone] at hb2
      simp only [Except.ok.injEq, Prod.mk.injEq] at hb2
      obtain ⟨-, hv⟩ := hb2
      subst hv
      exact ⟨rfl, rfl, rfl, rfl, rfl, rfl, rfl⟩
    · intro r p pc ch vo am hsome h1 h2 h3 h4 h5
      rw [buildIndexEntry_some_num hsome h1 h2 h3 h4 h5] at hb2
      simp only [Except.ok.injEq, Prod.mk.injEq] at hb2
      obtain ⟨-, hv⟩ := hb2
      subst hv
      rfl
  · constructor
    · intro hnone
      rw [buildIndexEntry_none hnone] at hb3
      simp only [Except.ok.injEq, Prod.mk.injEq] at hb3
      obtain ⟨-, hv⟩ := hb3
      subst hv
      exact ⟨rfl, rfl, rfl, rfl, rfl, rfl, rfl⟩
    · intro r p pc ch vo am hsome h1 h2 h3 h4 h5
      rw [buildIndexEntry_some_num hsome h1 h2 h3 h4 h5] at hb3
      simp only [Except.ok.injEq, Prod.mk.injEq] at hb3
      obtain ⟨-, hv⟩ := hb3
      subst hv
      rfl
  · constructor
    · intro hnone
      rw [buildIndexEntry_none hnone] at hb4
      simp only [Except.ok.injEq, Prod.mk.injEq] at hb4
      obtain ⟨-, hv⟩ := hb4
      subst hv
      exact ⟨rfl, rfl, rfl, rfl, rfl, rfl, rfl⟩
    · intro r p pc ch vo am hsome h1 h2 h3 h4 h5
      rw [buildIndexEntry_some_num hsome h1 h2 h3 h4 h5] at hb4
      simp only [Except.ok.injEq, Prod.mk.injEq] at hb4
      obtain ⟨-, hv⟩ := hb4
      subst hv
      rfl

/-- Witness for C7: on the concrete snapshot `dfW`, 000001 (present) is
echoed exactly and 399006 (absent) yields the zeroed no-data row. -/
theorem c7_index_echo_witness :
    jget jW7 "上证指数" = some (.jobj [("代码", .jstr "000001"),
      ("最新价", .jnum (.val 12.5)), ("涨跌幅", .jnum (.val 1.2)),
      ("涨跌额", .jnum (.val 0.15)), ("成交量", .jnum (.val 1000000)),
      ("成交额", .jnum (.val 12500000))]) ∧
    jget jW7 "创业板指" = some (zeroIndexJson "399006") ∧
    jget (zeroIndexJson "399006") "note" = some (.jstr "暂无数据") := by
  have h1 := c7_index_echo dfW jW7 "上证指数" "000001" (by simp [indicesList])
    rfl
  have h2 := c7_index_echo dfW jW7 "创业板指" "399006" (by simp [indicesList])
    rfl
  exact ⟨h1.2 rowA 12.5 1.2 0.15 1000000 12500000 rfl rfl rfl rfl rfl rfl,
    (h2.1 rfl).1, (h2.1 rfl).2.1⟩

/-- C9: a successful index-snapshot output has exactly the four fixed
index names as keys, every row carries the hardcoded 代码 for its name,
and a row built from a code found in the snapshot has no `note` key. -/
theorem c9_index_keys :
    ∀ (df : List Row) (j : Json), indexBody (.ok df) = .ok j →
      jkeys j = ["上证指数", "深证成指", "创业板指", "科创50"] ∧
      ∀ name code, (name, code) ∈ indicesList →
        ∃ v, jget j name = some v ∧ jget v "代码" = some (.jstr code) ∧
          ((df.filter fun r => r.code == code) ≠ [] →
            hasKey v "note" = false) := by
  intro df j hbody
  obtain ⟨v1, v2, v3, v4, rfl, hb1, hb2, hb3, hb4⟩ := indexBody_ok_inv hbody
  refine ⟨rfl, ?_⟩
  intro name code hmem
  simp only [indicesList, List.mem_cons, List.not_mem_nil, or_false,
    Prod.mk.injEq] at hmem
  rcases hmem with ⟨rfl, rfl⟩ | ⟨rfl, rfl⟩ | ⟨rfl, rfl⟩ | ⟨rfl, rfl⟩
  · exact ⟨v1, rfl, buildIndexEntry_code_note hb1⟩
  · exact ⟨v2, rfl, buildIndexEntry_code_note hb2⟩
  · exact ⟨v3, rfl, buildIndexEntry_code_note hb3⟩
  · exact ⟨v4, rfl, buildIndexEntry_code_note hb4⟩

/-- Witness for C9 at the concrete snapshot `dfW`. -/
theorem c9_index_keys_witness :
    jkeys jW7 = ["上证指数", "深证成指", "创业板指", "科创50"] ∧
    ∃ v, jget jW7 "上证指数" = some v ∧ jget v "代码" = some (.jstr "000001") ∧
      ((dfW.filter fun r => r.code == "000001") ≠ [] →
        hasKey v "note" = false) := by
  have h := c9_index_keys dfW jW7 rfl
  exact ⟨h.1, h.2 "上证指数" "000001" (by simp [indicesList])⟩

/-- C2 (amended): a present stock code yields a JSON document with all 16
documented fields (代码 and 名称 as strings, the other 14 as floats); an
absent code yields the plain non-JSON not-found message, a shape distinct
from every serialized JSON object (hence from both the success JSON and
the fallback JSON). -/
theorem c2_stock_info_shapes :
    ∀ (stock_code : String) (df : List Row),
      ((df.filter fun r => r.code == stock_code).head? = none →
        get_stock_info stock_code (.ok df) = "未找到股票代码: " ++ stock_code ∧
        ∀ fs : List (String × Json),
          "未找到股票代码: " ++ stock_code ≠ Json.dumps (.jobj fs)) ∧
      (∀ r : Row, (df.filter fun r => r.code == stock_code).head? = some r →
        r.infoOk = true →
        get_stock_info stock_code (.ok df) =
          Json.dumps (.jobj (stockInfoFieldsF r)) ∧
        (stockInfoFieldsF r).map Prod.fst =
          ["代码", "名称", "最新价", "涨跌幅", "涨跌额", "今开", "最高", "最低",
           "昨收", "成交量", "成交额", "换手率", "市盈率", "市净率", "总市值",
           "流通市值"] ∧
        (stockInfoFieldsF r).length = 16 ∧
        (((stockInfoFieldsF r).drop 2).all fun kv => isNumJson kv.2) = true) := by
  intro stock_code df
  constructor
  · intro hnone
    refine ⟨?_, notFound_ne_dumps_jobj stock_code⟩
    simp only [get_stock_info, stockInfoBody, ok_bind, hnone]
    rfl
  · intro r hsome hinfo
    refine ⟨?_, rfl, rfl, rfl⟩
    simp only [get_stock_info, stockInfoBody, ok_bind, hsome,
      stockInfoFields_ok hinfo]
    rfl

/-- Counterexample for C2 as stated: on a concrete snapshot the success
document of `get_stock_info` has 16 fields, not 15, and its 代码 field is
a string, not a float. -/
theorem c2_counterexample :
    get_stock_info "000001" (.ok [rowA]) =
      Json.dumps (.jobj (stockInfoFieldsF rowA)) ∧
    (stockInfoFieldsF rowA).length = 16 ∧
    ¬(stockInfoFieldsF rowA).length = 15 ∧
    jget (.jobj (stockInfoFieldsF rowA)) "代码" = some (.jstr "000001") ∧
    isNumJson (.jstr "000001") = false := by
  refine ⟨?_, rfl, by decide, rfl, rfl⟩
  rfl

/-- Witness for C2 (amended) at concrete snapshots: a present code gives
the 16-field JSON document, an absent code gives the plain not-found
string which is not a serialized JSON object. -/
theorem c2_stock_info_shapes_witness :
    (get_stock_info "000001" (.ok dfW) =
      Json.dumps (.jobj (stockInfoFieldsF rowA)) ∧
     (stockInfoFieldsF rowA).length = 16) ∧
    (get_stock_info "999999" (.ok dfW) = "未找到股票代码: " ++ "999999" ∧
     ∀ fs : List (String × Json),
       "未找到股票代码: " ++ "999999" ≠ Json.dumps (.jobj fs)) := by
  have hp := (c2_stock_info_shapes "000001" dfW).2 rowA rfl (by decide)
  have ha := (c2_stock_info_shapes "999999" dfW).1 rfl
  exact ⟨⟨hp.1, hp.2.2.1⟩, ha⟩

/-- C3: on any snapshot with a numeric percent-change column and
serializable rows, the ranking operation emits the gainers list sorted
non-increasing and the losers list sorted non-decreasing by percent
change; each list has exactly 20 entries when the snapshot has at least
20 rows and exactly as many entries as the snapshot has rows
otherwise. -/
theorem c3_ranking_sorted :
    ∀ df : List Row, (∀ r ∈ df, r.quoteOk = true) →
      rankingBody (.ok df) =
        .ok (.jobj [("涨幅榜", .jarr ((riseRows df).map quoteJsonF)),
                    ("跌幅榜", .jarr ((fallRows df).map quoteJsonF))]) ∧
      (riseRows df).Pairwise (fun a b => pctVal b ≤ pctVal a) ∧
      (fallRows df).Pairwise (fun a b => pctVal a ≤ pctVal b) ∧
      ((riseRows df).map quoteJsonF).Pairwise (fun a b => jpct b ≤ jpct a) ∧
      ((fallRows df).map quoteJsonF).Pairwise (fun a b => jpct a ≤ jpct b) ∧
      (20 ≤ df.length →
        (riseRows df).length = 20 ∧ (fallRows df).length = 20) ∧
      (df.length < 20 →
        (riseRows df).length = df.length ∧
          (fallRows df).length = df.length) := by
  intro df h
  have hq : ∀ r ∈ df, r.pct.isNum = true := by
    intro r hr
    have := h r hr
    simp only [Row.quoteOk, Bool.and_eq_true] at this
    exact this.1.1.1.2
  have hqrise : ∀ r ∈ riseRows df, r.pct.isNum = true := fun r hr =>
    hq r (mem_sortByPctDesc.1 (List.take_subset 20 _ hr))
  have hqfall : ∀ r ∈ fallRows df, r.pct.isNum = true := fun r hr =>
    hq r (mem_sortByPctAsc.1 (List.take_subset 20 _ hr))
  have hrs := riseRows_sorted hq
  have hfs := fallRows_sorted hq
  refine ⟨rankingBody_ok h, hrs, hfs, ?_, ?_, ?_, ?_⟩
  · rw [List.pairwise_map]
    refine hrs.imp_of_mem ?_
    intro a b ha hb hab
    obtain ⟨p, hp⟩ := CellVal.isNum_iff.1 (hqrise a ha)
    obtain ⟨q, hqq⟩ := CellVal.isNum_iff.1 (hqrise b hb)
    rw [jpct_quoteJsonF hp, jpct_quoteJsonF hqq]
    exact hab
  · rw [List.pairwise_map]
    refine hfs.imp_of_mem ?_
    intro a b ha hb hab
    obtain ⟨p, hp⟩ := CellVal.isNum_iff.1 (hqfall a ha)
    obtain ⟨q, hqq⟩ := CellVal.isNum_iff.1 (hqfall b hb)
    rw [jpct_quoteJsonF hp, jpct_quoteJsonF hqq]
    exact hab
  · intro h20
    constructor
    · simp only [riseRows, List.length_take, sortByPctDesc,
        List.length_mergeSort]
      omega
    · simp only [fallRows, List.length_take, sortByPctAsc,
        List.length_mergeSort]
      omega
  · intro h20
    constructor
    · simp only [riseRows, List.length_take, sortByPctDesc,
        List.length_mergeSort]
      omega
    · simp only [fallRows, List.length_take, sortByPctAsc,
        List.length_mergeSort]
      omega

/-- Witness for C3 at the concrete snapshot `dfW` (3 rows, so both lists
have 3 entries). -/
theorem c3_ranking_sorted_witness :
    rankingBody (.ok dfW) =
      .ok (.jobj [("涨幅榜", .jarr ((riseRows dfW).map quoteJsonF)),
                  ("跌幅榜", .jarr ((fallRows dfW).map quoteJsonF))]) ∧
    (riseRows dfW).Pairwise (fun a b => pctVal b ≤ pctVal a) ∧
    (dfW.length < 20 → (riseRows dfW).length = dfW.length ∧
      (fallRows dfW).length = dfW.length) := by
  have h := c3_ranking_sorted dfW (by decide)
  exact ⟨h.1, h.2.1, h.2.2.2.2.2.2⟩

/-- C4: a successful market-statistics output reports the count of rows
with 涨跌幅 ≥ 9.9 as limit-up, ≤ -9.9 as limit-down, > 0 / < 0 / = 0 as
advancing / declining / flat, and the snapshot's row count as the total;
the filter predicates hold exactly of rows whose percent-change cell is an
actual number satisfying the comparison. -/
theorem c4_market_counts :
    ∀ (df : List Row) (j : Json), statsBody (.ok df) = .ok j →
      jget2 j "涨跌停统计" "涨停家数" =
        some (.jint ((df.filter fun r => r.pct.geQ 9.9).length : ℤ)) ∧
      jget2 j "涨跌停统计" "跌停家数" =
        some (.jint ((df.filter fun r => r.pct.leQ (-9.9)).length : ℤ)) ∧
      jget2 j "涨跌家数" "上涨家数" =
        some (.jint ((df.filter fun r => r.pct.gtQ 0).length : ℤ)) ∧
      jget2 j "涨跌家数" "下跌家数" =
        some (.jint ((df.filter fun r => r.pct.ltQ 0).length : ℤ)) ∧
      jget2 j "涨跌家数" "平盘家数" =
        some (.jint ((df.filter fun r => r.pct.eqQ 0).length : ℤ)) ∧
      jget j "股票总数" = some (.jint (df.length : ℤ)) ∧
      (∀ v : CellVal, v.geQ 9.9 = true ↔ ∃ q, v = .num q ∧ (9.9 : ℚ) ≤ q) ∧
      (∀ v : CellVal, v.leQ (-9.9) = true ↔ ∃ q, v = .num q ∧ q ≤ (-9.9 : ℚ)) ∧
      (∀ v : CellVal, v.gtQ 0 = true ↔ ∃ q, v = .num q ∧ (0 : ℚ) < q) ∧
      (∀ v : CellVal, v.ltQ 0 = true ↔ ∃ q, v = .num q ∧ q < (0 : ℚ)) ∧
      (∀ v : CellVal, v.eqQ 0 = true ↔ ∃ q, v = .num q ∧ q = 0) := by
  intro df j h
  obtain ⟨-, -, rfl⟩ := statsBody_ok_inv h
  refine ⟨rfl, rfl, rfl, rfl, rfl, rfl, ?_, ?_, ?_, ?_, ?_⟩
  · intro v
    cases v <;> simp [CellVal.geQ]
  · intro v
    cases v <;> simp [CellVal.leQ]
  · intro v
    cases v <;> simp [CellVal.gtQ]
  · intro v
    cases v <;> simp [CellVal.ltQ]
  · intro v
    cases v <;> simp [CellVal.eqQ]

/-- Witness for C4 at the concrete snapshot `dfW`. -/
theorem c4_market_counts_witness :
    statsBody (.ok dfW) = .ok (statsJsonF dfW) ∧
    jget2 (statsJsonF dfW) "涨跌家数" "上涨家数" =
      some (.jint ((dfW.filter fun r => r.pct.gtQ 0).length : ℤ)) ∧
    jget (statsJsonF dfW) "股票总数" = some (.jint (dfW.length : ℤ)) := by
  have hb : statsBody (.ok dfW) = .ok (statsJsonF dfW) :=
    statsBody_ok (by decide) (by decide)
  have h := c4_market_counts dfW (statsJsonF dfW) hb
  exact ⟨hb, h.2.2.1, h.2.2.2.2.2.1⟩

/-- C5: on a snapshot of numeric percent-change and turnover cells, the
reported mean percent change is the column mean rounded to 2 decimal
places and the reported total turnover is the column sum divided by
100000000 rounded to 2 decimal places, with rounding to nearest and ties
to even (the rule of Python's built-in `round`); the rounding never moves
a value by more than half a unit in the last place. -/
theorem c5_market_rounding :
    ∀ df : List Row, 0 < df.length → (∀ r ∈ df, r.pct.isNum = true) →
      (∀ r ∈ df, r.amount.isNum = true) →
      statsBody (.ok df) = .ok (statsJsonF df) ∧
      jget2 (statsJsonF df) "市场表现" "平均涨跌幅" =
        some (.jnum (.val
          ((roundHalfEven (((df.map pctVal).sum / df.length) * 100) : ℚ)
            / 100))) ∧
      jget2 (statsJsonF df) "市场表现" "总成交额" =
        some (.jnum (.val
          ((roundHalfEven (((df.map amtVal).sum / 100000000) * 100) : ℚ)
            / 100))) ∧
      (∀ x : ℚ, x - 1/2 ≤ (roundHalfEven x : ℚ) ∧
        (roundHalfEven x : ℚ) ≤ x + 1/2) ∧
      roundHalfEven (1/2) = 0 ∧ roundHalfEven (3/2) = 2 ∧
      roundHalfEven (5/2) = 2 ∧ roundHalfEven (7/2) = 4 := by
  intro df hlen hp ha
  have hbody := statsBody_ok
    (fun r hr => isNum_isFloatCell (hp r hr))
    (fun r hr => isNum_isFloatCell (ha r hr))
  have hm : colMeanT (df.map (·.pct)) =
      .val ((df.map pctVal).sum / df.length) := by
    rw [colMeanT, numCells_map_pct hp]
    rw [if_neg (by simp only [List.length_map]; omega)]
    rw [List.length_map]
  have hmean : jget2 (statsJsonF df) "市场表现" "平均涨跌幅" =
      some (.jnum (pyRound2 (colMeanT (df.map (·.pct))))) := rfl
  have hamt : jget2 (statsJsonF df) "市场表现" "总成交额" =
      some (.jnum (pyRound2
        (.val ((numCells (df.map (·.amount))).sum / 100000000)))) := rfl
  refine ⟨hbody, ?_, ?_, roundHalfEven_bounds, roundHalfEven_tie0,
    roundHalfEven_tie1, roundHalfEven_tie2, roundHalfEven_tie3⟩
  · rw [hmean, hm]
    rfl
  · rw [hamt, numCells_map_amount ha]
    rfl

/-- Witness for C5 at the concrete snapshot `dfW`. -/
theorem c5_market_rounding_witness :
    statsBody (.ok dfW) = .ok (statsJsonF dfW) ∧
    jget2 (statsJsonF dfW) "市场表现" "平均涨跌幅" =
      some (.jnum (.val
        ((roundHalfEven (((dfW.map pctVal).sum / dfW.length) * 100) : ℚ)
          / 100))) ∧
    roundHalfEven (5/2) = 2 := by
  have h := c5_market_rounding dfW (by decide) (by decide) (by decide)
  exact ⟨h.1, h.2.1, h.2.2.2.2.2.2.1⟩

/-- C10: when every percent-change cell of the snapshot is an actual
number, the advancing, declining and flat counts reported by a successful
market-statistics output add up to the reported total instrument
count. -/
theorem c10_count_partition :
    ∀ (df : List Row) (j : Json), statsBody (.ok df) = .ok j →
      (∀ r ∈ df, r.pct.isNum = true) →
      jget2 j "涨跌家数" "上涨家数" =
        some (.jint ((df.filter fun r => r.pct.gtQ 0).length : ℤ)) ∧
      jget2 j "涨跌家数" "下跌家数" =
        some (.jint ((df.filter fun r => r.pct.ltQ 0).length : ℤ)) ∧
      jget2 j "涨跌家数" "平盘家数" =
        some (.jint ((df.filter fun r => r.pct.eqQ 0).length : ℤ)) ∧
      jget j "股票总数" = some (.jint (df.length : ℤ)) ∧
      (df.filter fun r => r.pct.gtQ 0).length +
        (df.filter fun r => r.pct.ltQ 0).length +
        (df.filter fun r => r.pct.eqQ 0).length = df.length := by
  intro df j h hnum
  obtain ⟨-, -, rfl⟩ := statsBody_ok_inv h
  exact ⟨rfl, rfl, rfl, rfl, pct_partition df hnum⟩

/-- Witness for C10 at the concrete snapshot `dfW`
(1 advancing + 1 declining + 1 flat = 3 rows). -/
theorem c10_count_partition_witness :
    jget2 (statsJsonF dfW) "涨跌家数" "上涨家数" =
      some (.jint ((dfW.filter fun r => r.pct.gtQ 0).length : ℤ)) ∧
    (dfW.filter fun r => r.pct.gtQ 0).length +
      (dfW.filter fun r => r.pct.ltQ 0).length +
      (dfW.filter fun r => r.pct.eqQ 0).length = dfW.length := by
  have hb : statsBody (.ok dfW) = .ok (statsJsonF dfW) :=
    statsBody_ok (by decide) (by decide)
  have h := c10_count_partition dfW (statsJsonF dfW) hb (by decide)
  exact ⟨h.1, h.2.2.2.2⟩

theorem topSectorRows_sorted {df : List SectorRow}
    (h : ∀ r ∈ df, r.pct.isNum = true) :
    (sortSectorsDesc df).Pairwise fun a b => spctVal b ≤ spctVal a := by
  refine (sortSectorsDesc_pairwise df).imp_of_mem ?_
  intro a b ha hb hd
  obtain ⟨p, hap⟩ := CellVal.isNum_iff.1 (h a (mem_sortSectorsDesc.1 ha))
  obtain ⟨q, hbq⟩ := CellVal.isNum_iff.1 (h b (mem_sortSectorsDesc.1 hb))
  rw [hap, hbq] at hd
  simp [descLe] at hd
  simp [spctVal, hap, hbq, hd]

/-- C6: the sector operation sorts the sector table descending by percent
change and serializes its first 10 rows as the best sectors and its last
10 rows as the worst sectors; both selections are correctly ordered by
percent change, and when the table has at least 20 sectors the two
selections cover disjoint parts of the sorted table. -/
theorem c6_sector_selections :
    ∀ df : List SectorRow, (∀ r ∈ df, r.sectorOk = true) →
      sectorBody (.ok df) =
        .ok (.jobj [("表现最好的板块", .jarr ((topSectorRows df).map sectorJsonF)),
                    ("表现最差的板块",
                      .jarr ((bottomSectorRows df).map sectorJsonF))]) ∧
      topSectorRows df = (sortSectorsDesc df).take 10 ∧
      bottomSectorRows df =
        (sortSectorsDesc df).drop ((sortSectorsDesc df).length - 10) ∧
      (sortSectorsDesc df).Pairwise (fun a b => spctVal b ≤ spctVal a) ∧
      (topSectorRows df).Pairwise (fun a b => spctVal b ≤ spctVal a) ∧
      (bottomSectorRows df).Pairwise (fun a b => spctVal b ≤ spctVal a) ∧
      (20 ≤ df.length →
        (topSectorRows df).length = 10 ∧ (bottomSectorRows df).length = 10 ∧
        ∃ mid, sortSectorsDesc df =
          topSectorRows df ++ mid ++ bottomSectorRows df) := by
  intro df h
  have hq : ∀ r ∈ df, r.pct.isNum = true := by
    intro r hr
    have := h r hr
    simp only [SectorRow.sectorOk, Bool.and_eq_true] at this
    exact this.1.1.1.1.1.2
  have hsorted := topSectorRows_sorted hq
  have hlen : (sortSectorsDesc df).length = df.length := by
    simp [sortSectorsDesc]
  refine ⟨sectorBody_ok h, rfl, rfl, hsorted,
    List.Pairwise.sublist (List.take_sublist 10 _) hsorted,
    List.Pairwise.sublist (List.drop_sublist _ _) hsorted, ?_⟩
  intro h20
  refine ⟨?_, ?_, ?_⟩
  · simp only [topSectorRows, List.length_take]
    omega
  · simp only [bottomSectorRows, List.length_drop]
    omega
  · refine ⟨((sortSectorsDesc df).drop 10).take
      ((sortSectorsDesc df).length - 20), ?_⟩
    have e1 := List.take_append_drop 10 (sortSectorsDesc df)
    have e2 := List.take_append_drop ((sortSectorsDesc df).length - 20)
      ((sortSectorsDesc df).drop 10)
    have e3 : ((sortSectorsDesc df).drop 10).drop
        ((sortSectorsDesc df).length - 20) =
        (sortSectorsDesc df).drop ((sortSectorsDesc df).length - 10) := by
      rw [List.drop_drop]
      congr 1
      omega
    rw [topSectorRows, bottomSectorRows, List.append_assoc]
    rw [← e3, e2, e1]

/-- Witness for C6 at the concrete sector table `dfSec` (2 sectors). -/
theorem c6_sector_selections_witness :
    sectorBody (.ok dfSec) =
      .ok (.jobj [("表现最好的板块", .jarr ((topSectorRows dfSec).map sectorJsonF)),
                  ("表现最差的板块",
                    .jarr ((bottomSectorRows dfSec).map sectorJsonF))]) ∧
    (topSectorRows dfSec).Pairwise (fun a b => spctVal b ≤ spctVal a) := by
  have h := c6_sector_selections dfSec (by decide)
  exact ⟨h.1, h.2.2.2.2.1⟩

theorem rankingBody_ok_inv {f : Except String (List Row)} {j : Json}
    (h : rankingBody f = .ok j) :
    ∃ rise fall : List Json,
      j = .jobj [("涨幅榜", .jarr rise), ("跌幅榜", .jarr fall)] ∧
      (∀ v ∈ rise, ∃ r : Row, quoteJson r = .ok v) ∧
      (∀ v ∈ fall, ∃ r : Row, quoteJson r = .ok v) := by
  cases f with
  | error e =>
    rw [rankingBody, error_bind] at h
    cases h
  | ok df =>
    simp only [rankingBody, ok_bind] at h
    obtain ⟨pcts, hcol, h⟩ := bind_ok_inv h
    split at h
    · obtain ⟨rise, hrise, h⟩ := bind_ok_inv h
      obtain ⟨fall, hfall, h⟩ := bind_ok_inv h
      rw [pure_eq_ok] at h
      injection h with h
      subst h
      refine ⟨rise, fall, rfl, ?_, ?_⟩
      · intro v hv
        obtain ⟨r, -, hr⟩ := mapM_ok_mem _ hrise v hv
        exact ⟨r, hr⟩
      · intro v hv
        obtain ⟨r, -, hr⟩ := mapM_ok_mem _ hfall v hv
        exact ⟨r, hr⟩
    · cases h

theorem sectorBody_ok_inv {f : Except String (List SectorRow)} {j : Json}
    (h : sectorBody f = .ok j) :
    ∃ top bottom : List Json,
      j = .jobj [("表现最好的板块", .jarr top), ("表现最差的板块", .jarr bottom)] ∧
      (∀ v ∈ top, ∃ r : SectorRow, sectorJson r = .ok v) ∧
      (∀ v ∈ bottom, ∃ r : SectorRow, sectorJson r = .ok v) := by
  cases f with
  | error e =>
    rw [sectorBody, error_bind] at h
    cases h
  | ok df =>
    simp only [sectorBody, ok_bind] at h
    obtain ⟨c1, hc1, h⟩ := bind_ok_inv h
    obtain ⟨c2, hc2, h⟩ := bind_ok_inv h
    obtain ⟨c3, hc3, h⟩ := bind_ok_inv h
    obtain ⟨c4, hc4, h⟩ := bind_ok_inv h
    obtain ⟨c5, hc5, h⟩ := bind_ok_inv h
    obtain ⟨c6, hc6, h⟩ := bind_ok_inv h
    obtain ⟨c7, hc7, h⟩ := bind_ok_inv h
    split at h
    · obtain ⟨top, htop, h⟩ := bind_ok_inv h
      obtain ⟨bottom, hbot, h⟩ := bind_ok_inv h
      rw [pure_eq_ok] at h
      injection h with h
      subst h
      refine ⟨top, bottom, rfl, ?_, ?_⟩
      · intro v hv
        obtain ⟨r, -, hr⟩ := mapM_ok_mem _ htop v hv
        exact ⟨r, hr⟩
      · intro v hv
        obtain ⟨r, -, hr⟩ := mapM_ok_mem _ hbot v hv
        exact ⟨r, hr⟩
    · cases h

theorem buildIndexEntry_numeric {df : List Row} {nc : String × String}
    {p : String × Json} (h : buildIndexEntry df nc = .ok p) :
    ∀ k ∈ (["最新价", "涨跌幅", "涨跌额", "成交量", "成交额"] : List String),
      ∃ w, jget p.2 k = some w ∧ isNumJson w = true := by
  simp only [buildIndexEntry] at h
  split at h
  · obtain ⟨w, hw, h⟩ := bind_ok_inv h
    rw [pure_eq_ok] at h
    injection h with h
    subst h
    obtain ⟨x1, x2, x3, x4, x5, rfl⟩ := foundIndexJson_ok_inv hw
    intro k hk
    simp only [List.mem_cons, List.not_mem_nil, or_false] at hk
    rcases hk with rfl | rfl | rfl | rfl | rfl
    · exact ⟨_, rfl, rfl⟩
    · exact ⟨_, rfl, rfl⟩
    · exact ⟨_, rfl, rfl⟩
    · exact ⟨_, rfl, rfl⟩
    · exact ⟨_, rfl, rfl⟩
  · rw [pure_eq_ok] at h
    injection h with h
    subst h
    intro k hk
    simp only [List.mem_cons, List.not_mem_nil, or_false] at hk
    rcases hk with rfl | rfl | rfl | rfl | rfl
    · exact ⟨_, rfl, rfl⟩
    · exact ⟨_, rfl, rfl⟩
    · exact ⟨_, rfl, rfl⟩
    · exact ⟨_, rfl, rfl⟩
    · exact ⟨_, rfl, rfl⟩

/-- C8: in every operation's successful output, every numeric field holds
a JSON number (a Python float or int) — including fields whose source cell
was textual (parsed by `float`) or missing (defaulted to `0` by
`row.get(col, 0)` in the index operation). -/
theorem c8_numeric_fields :
    (∀ (df : List Row) (j : Json), indexBody (.ok df) = .ok j →
      ∀ nm ∈ jkeys j, ∃ v, jget j nm = some v ∧
        ∀ k ∈ (["最新价", "涨跌幅", "涨跌额", "成交量", "成交额"] : List String),
          ∃ w, jget v k = some w ∧ isNumJson w = true) ∧
    (∀ (f : Except String (List Row)) (j : Json), rankingBody f = .ok j →
      ∀ sec ∈ (["涨幅榜", "跌幅榜"] : List String),
        ∃ arr, jget j sec = some (.jarr arr) ∧
          ∀ v ∈ arr,
            ∀ k ∈ (["最新价", "涨跌幅", "涨跌额", "成交量", "成交额"] : List String),
              ∃ w, jget v k = some w ∧ isNumJson w = true) ∧
    (∀ (df : List Row) (j : Json), statsBody (.ok df) = .ok j →
      (∃ w, jget2 j "涨跌停统计" "涨停家数" = some w ∧ isNumJson w = true) ∧
      (∃ w, jget2 j "涨跌停统计" "跌停家数" = some w ∧ isNumJson w = true) ∧
      (∃ w, jget2 j "涨跌家数" "上涨家数" = some w ∧ isNumJson w = true) ∧
      (∃ w, jget2 j "涨跌家数" "下跌家数" = some w ∧ isNumJson w = true) ∧
      (∃ w, jget2 j "涨跌家数" "平盘家数" = some w ∧ isNumJson w = true) ∧
      (∃ w, jget2 j "市场表现" "平均涨跌幅" = some w ∧ isNumJson w = true) ∧
      (∃ w, jget2 j "市场表现" "总成交额" = some w ∧ isNumJson w = true) ∧
      (∃ w, jget j "股票总数" = some w ∧ isNumJson w = true)) ∧
    (∀ (f : Except String (List SectorRow)) (j : Json), sectorBody f = .ok j →
      ∀ sec ∈ (["表现最好的板块", "表现最差的板块"] : List String),
        ∃ arr, jget j sec = some (.jarr arr) ∧
          ∀ v ∈ arr,
            ∀ k ∈ (["最新价", "涨跌幅", "涨跌额", "上涨家数", "下跌家数"] : List String),
              ∃ w, jget v k = some w ∧ isNumJson w = true) ∧
    (∀ (r : Row) (fs : List (String × Json)), stockInfoFields r = .ok fs →
      ∀ k ∈ (["最新价", "涨跌幅", "涨跌额", "今开", "最高", "最低", "昨收",
              "成交量", "成交额", "换手率", "市盈率", "市净率", "总市值",
              "流通市值"] : List String),
        ∃ w, jget (.jobj fs) k = some w ∧ isNumJson w = true) ∧
    (∀ q : ℚ, pyFloat ((CellVal.numStr q).getD 0) = .ok (.val q)) ∧
    pyFloat (CellVal.absent.getD 0) = .ok (.val 0) := by
  refine ⟨?_, ?_, ?_, ?_, ?_, fun q => rfl, rfl⟩
  · intro df j hbody nm hnm
    obtain ⟨v1, v2, v3, v4, rfl, hb1, hb2, hb3, hb4⟩ := indexBody_ok_inv hbody
    simp only [jkeys, List.map_cons, List.map_nil, List.mem_cons,
      List.not_mem_nil, or_false] at hnm
    rcases hnm with rfl | rfl | rfl | rfl
    · exact ⟨v1, rfl, buildIndexEntry_numeric hb1⟩
    · exact ⟨v2, rfl, buildIndexEntry_numeric hb2⟩
    · exact ⟨v3, rfl, buildIndexEntry_numeric hb3⟩
    · exact ⟨v4, rfl, buildIndexEntry_numeric hb4⟩
  · intro f j hbody sec hsec
    obtain ⟨rise, fall, rfl, hrise, hfall⟩ := rankingBody_ok_inv hbody
    have hnum : ∀ l : List Json, (∀ v ∈ l, ∃ r : Row, quoteJson r = .ok v) →
        ∀ v ∈ l,
          ∀ k ∈ (["最新价", "涨跌幅", "涨跌额", "成交量", "成交额"] : List String),
            ∃ w, jget v k = some w ∧ isNumJson w = true := by
      intro l hl v hv k hk
      obtain ⟨r, hr⟩ := hl v hv
      obtain ⟨x1, x2, x3, x4, x5, rfl⟩ := quoteJson_ok_inv hr
      simp only [List.mem_cons, List.not_mem_nil, or_false] at hk
      rcases hk with rfl | rfl | rfl | rfl | rfl
      · exact ⟨_, rfl, rfl⟩
      · exact ⟨_, rfl, rfl⟩
      · exact ⟨_, rfl, rfl⟩
      · exact ⟨_, rfl, rfl⟩
      · exact ⟨_, rfl, rfl⟩
    simp only [List.mem_cons, List.not_mem_nil, or_false] at hsec
    rcases hsec with rfl | rfl
    · exact ⟨rise, rfl, hnum rise hrise⟩
    · exact ⟨fall, rfl, hnum fall hfall⟩
  · intro df j hbody
    obtain ⟨-, -, rfl⟩ := statsBody_ok_inv hbody
    exact ⟨⟨_, rfl, rfl⟩, ⟨_, rfl, rfl⟩, ⟨_, rfl, rfl⟩, ⟨_, rfl, rfl⟩,
      ⟨_, rfl, rfl⟩, ⟨_, rfl, rfl⟩, ⟨_, rfl, rfl⟩, ⟨_, rfl, rfl⟩⟩
  · intro f j hbody sec hsec
    obtain ⟨top, bottom, rfl, htop, hbot⟩ := sectorBody_ok_inv hbody
    have hnum : ∀ l : List Json,
        (∀ v ∈ l, ∃ r : SectorRow, sectorJson r = .ok v) →
        ∀ v ∈ l,
          ∀ k ∈ (["最新价", "涨跌幅", "涨跌额", "上涨家数", "下跌家数"] : List String),
            ∃ w, jget v k = some w ∧ isNumJson w = true := by
      intro l hl v hv k hk
      obtain ⟨r, hr⟩ := hl v hv
      obtain ⟨x1, x2, x3, x4, x5, rfl⟩ := sectorJson_ok_inv hr
      simp only [List.mem_cons, List.not_mem_nil, or_false] at hk
      rcases hk with rfl | rfl | rfl | rfl | rfl
      · exact ⟨_, rfl, rfl⟩
      · exact ⟨_, rfl, rfl⟩
      · exact ⟨_, rfl, rfl⟩
      · exact ⟨_, rfl, rfl⟩
      · exact ⟨_, rfl, rfl⟩
    simp only [List.mem_cons, List.not_mem_nil, or_false] at hsec
    rcases hsec with rfl | rfl
    · exact ⟨top, rfl, hnum top htop⟩
    · exact ⟨bottom, rfl, hnum bottom hbot⟩
  · intro r fs hfs k hk
    obtain ⟨x1, x2, x3, x4, x5, x6, x7, x8, x9, x10, x11, x12, x13, x14,
      rfl⟩ := stockInfoFields_ok_inv hfs
    simp only [List.mem_cons, List.not_mem_nil, or_false] at hk
    rcases hk with rfl | rfl | rfl | rfl | rfl | rfl | rfl | rfl | rfl |
      rfl | rfl | rfl | rfl | rfl
    · exact ⟨_, rfl, rfl⟩
    · exact ⟨_, rfl, rfl⟩
    · exact ⟨_, rfl, rfl⟩
    · exact ⟨_, rfl, rfl⟩
    · exact ⟨_, rfl, rfl⟩
    · exact ⟨_, rfl, rfl⟩
    · exact ⟨_, rfl, rfl⟩
    · exact ⟨_, rfl, rfl⟩
    · exact ⟨_, rfl, rfl⟩
    · exact ⟨_, rfl, rfl⟩
    · exact ⟨_, rfl, rfl⟩
    · exact ⟨_, rfl, rfl⟩
    · exact ⟨_, rfl, rfl⟩
    · exact ⟨_, rfl, rfl⟩

/-- Witness for C8: concrete successful outputs carry JSON numbers at the
numeric keys, a textual cell is coerced, an absent cell defaults to 0. -/
theorem c8_numeric_fields_witness :
    (∃ w, jget2 (statsJsonF dfW) "市场表现" "平均涨跌幅" = some w ∧
      isNumJson w = true) ∧
    pyFloat ((CellVal.numStr 7).getD 0) = .ok (.val 7) ∧
    pyFloat (CellVal.absent.getD 0) = .ok (.val 0) ∧
    (∃ v, jget jW7 "上证指数" = some v ∧
      ∃ w, jget v "最新价" = some w ∧ isNumJson w = true) := by
  have hb : statsBody (.ok dfW) = .ok (statsJsonF dfW) :=
    statsBody_ok (by decide) (by decide)
  have hs := (c8_numeric_fields.2.2.1 dfW (statsJsonF dfW) hb).2.2.2.2.2.1
  have hidx := c8_numeric_fields.1 dfW jW7 rfl "上证指数" (by simp [jW7, jkeys])
  obtain ⟨v, hv, hnum⟩ := hidx
  exact ⟨hs, c8_numeric_fields.2.2.2.2.2.1 7, c8_numeric_fields.2.2.2.2.2.2,
    v, hv, hnum "最新价" (by simp)⟩

end StockTool
